import Mathlib

set_option maxRecDepth 100000

/-!
Shallow embedding of the Donna voice-capture core.

Sources embedded:
- src/frontend/components/voice-recorder.tsx  (component VoiceRecorder)
- src/frontend/components/user-info.tsx       (component GlowyOrb, second document)
- src/frontend/lib/api-client.ts              (uploadVoiceRecording, authenticated variant)

The two components share character-identical code for startRecording (including
the analyser setup, the updateAudioLevel loop, the MediaRecorder construction,
ondataavailable, onstop with its upload and 3000 ms reset timers, and the catch
branch) and for the unmount cleanup effect.  They differ only in stopRecording
(VoiceRecorder guards on the isRecording React flag, GlowyOrb guards on the
MediaRecorder state directly) and GlowyOrb additionally installs document-level
space-bar keydown/keyup listeners.

The machine state mirrors the component refs and React state fields one for
one, plus ghost observation fields (acqCount, liveStreams, uploads, alerted)
that record externally visible effects: getUserMedia requests issued, granted
streams whose tracks were not yet stopped, artifacts handed to
uploadVoiceRecording, and the permission alert.  Asynchronous completions
(getUserMedia resolution, recorder onstop delivery, upload resolution, the
reset timer) are separate events, reflecting the single-threaded cooperative
scheduling of the browser.  A handler that would raise an uncaught exception is
modelled by the step function returning none.
-/

namespace Donna

/-- MediaRecorder.state as used by the components (paused never occurs:
the code never calls pause). -/
inductive RecState
  | inactive
  | recording
  deriving DecidableEq, Repr

/-- The uploadStatus React state: "idle" or "success" or "error". -/
inductive UploadStatus
  | idle
  | success
  | error
  deriving DecidableEq, Repr

/-- Combined component state: React state (isRecording, isHolding, audioLevel,
isUploading, uploadStatus), refs (recorder = mediaRecorderRef with its state,
chunks = audioChunksRef, analyser = whether analyserRef is set, animFrame =
whether animationFrameRef holds a still-pending scheduled frame), the
closure-local isKeyHolding flag of the GlowyOrb keyboard effect, mount and
listener status, pending asynchronous completions, and ghost observation
fields. -/
structure OrbState where
  isRecording : Bool
  isHolding : Bool
  audioLevel : ℚ
  isUploading : Bool
  uploadStatus : UploadStatus
  recorder : Option RecState
  chunks : List (List ℕ)
  analyser : Bool
  animFrame : Bool
  isKeyHolding : Bool
  listeners : Bool
  mounted : Bool
  pendingAcq : ℕ
  pendingStop : Bool
  pendingUpload : Bool
  timeoutDelay : Option ℕ
  acqCount : ℕ
  liveStreams : ℕ
  uploads : List (List ℕ)
  alerted : Bool
  deriving DecidableEq, Repr

/-- Events: gesture inputs, asynchronous completions, and the visualization
tick (carrying the byte buffer filled by getByteFrequencyData). -/
inductive Ev
  | mouseDown
  | touchStart
  | mouseUp
  | touchEnd
  | keyDown
  | keyUp
  | grantOk (buf : List ℕ)
  | grantNoRec (buf : List ℕ)
  | deny
  | tick (buf : List ℕ)
  | dataAvail (chunk : List ℕ)
  | stopFire
  | uploadOk
  | uploadErr
  | timeout
  | unmount
  deriving DecidableEq, Repr

/-- JavaScript Array.prototype.reduce with callback (a, b) => a + b and no
initial value: throws a TypeError (none) on an empty array, otherwise folds
from the first element. -/
def jsReduceAdd : List ℕ → Option ℕ
  | [] => none
  | x :: xs => some (xs.foldl (· + ·) x)

/-- One visualization tick reduction, voice-recorder.tsx lines 64-66 and
user-info.tsx GlowyOrb lines 126-128:
average = dataArray.reduce((a, b) => a + b) / dataArray.length;
setAudioLevel(average / 255).  none models the TypeError raised by reduce on
an empty buffer. -/
def tickLevel (buf : List ℕ) : Option ℚ :=
  (jsReduceAdd buf).map (fun total => ((total : ℚ) / buf.length) / 255)

/-- The rAF callback updateAudioLevel (voice-recorder.tsx lines 62-69,
GlowyOrb lines 124-131): if analyserRef.current is set, sample, publish the
level, and schedule the next frame; otherwise do nothing (and hence do not
reschedule).  The caller has already consumed the fired frame (animFrame is
false on entry when invoked from step).  An uncaught TypeError from reduce on
an empty buffer is none. -/
def updateAudioLevel (buf : List ℕ) (s : OrbState) : Option OrbState :=
  if s.analyser then
    match tickLevel buf with
    | none => none
    | some l => some { s with audioLevel := l, animFrame := true }
  else some s

/-- Body of startRecording after getUserMedia resolves, when the MediaRecorder
constructor succeeds (voice-recorder.tsx lines 50-120, GlowyOrb lines 112-182):
set up the analyser, run updateAudioLevel once synchronously (inside the try,
so a reduce TypeError is caught and alerted), construct the recorder, clear
audioChunksRef, install ondataavailable and onstop, start the recorder, and
set isRecording. -/
def startRecordingGranted (buf : List ℕ) (s : OrbState) : OrbState :=
  let s2 := { s with pendingAcq := s.pendingAcq - 1,
                     liveStreams := s.liveStreams + 1,
                     analyser := true }
  match tickLevel buf with
  | none => { s2 with alerted := true }
  | some l =>
      { s2 with audioLevel := l, animFrame := true,
                recorder := some RecState.recording,
                chunks := [], isRecording := true }

/-- Body of startRecording after getUserMedia resolves, when the MediaRecorder
constructor throws (e.g. MediaRecorder unsupported): the analyser is already
connected and the visualization loop already started before the throw; the
catch (voice-recorder.tsx lines 121-124, GlowyOrb lines 183-186) only logs and
alerts.  In particular the granted stream tracks are not stopped and the
scheduled frame is not cancelled. -/
def startRecordingRecorderThrow (buf : List ℕ) (s : OrbState) : OrbState :=
  let s2 := { s with pendingAcq := s.pendingAcq - 1,
                     liveStreams := s.liveStreams + 1,
                     analyser := true }
  match tickLevel buf with
  | none => { s2 with alerted := true }
  | some l => { s2 with audioLevel := l, animFrame := true, alerted := true }

/-- Catch branch of startRecording when getUserMedia rejects
(voice-recorder.tsx lines 121-124, GlowyOrb lines 183-186): console.error and
alert, nothing else. -/
def startRecordingCatch (s : OrbState) : OrbState :=
  { s with pendingAcq := s.pendingAcq - 1, alerted := true }

/-- ondataavailable (voice-recorder.tsx lines 76-80, GlowyOrb lines 138-142):
push the chunk onto audioChunksRef only when event.data.size > 0. -/
def onDataAvailable (chunk : List ℕ) (s : OrbState) : OrbState :=
  if 0 < chunk.length then { s with chunks := s.chunks ++ [chunk] } else s

/-- onstop up to the await of uploadVoiceRecording (voice-recorder.tsx lines
82-97, GlowyOrb lines 144-159): assemble the Blob from audioChunksRef (the
artifact is the concatenation of the collected chunks), stop the stream
tracks, cancel the pending animation frame, zero the level, set isUploading,
reset uploadStatus, and initiate the single upload attempt. -/
def onStop (s : OrbState) : OrbState :=
  let artifact := s.chunks.flatten
  { s with liveStreams := s.liveStreams - 1,
           animFrame := false,
           audioLevel := 0,
           isUploading := true,
           uploadStatus := UploadStatus.idle,
           uploads := s.uploads ++ [artifact],
           pendingUpload := true,
           pendingStop := false }

/-- Continuation of onstop once uploadVoiceRecording settles
(voice-recorder.tsx lines 98-116, GlowyOrb lines 160-178): on resolution set
uploadStatus to success, on rejection to error; in both branches schedule
setTimeout(..., 3000) that will reset the status.  No second upload attempt is
made in either branch. -/
def onStopUploadSettled (ok : Bool) (s : OrbState) : OrbState :=
  { s with pendingUpload := false,
           uploadStatus := if ok then UploadStatus.success else UploadStatus.error,
           timeoutDelay := some 3000 }

/-- The setTimeout callback shared by both upload branches (voice-recorder.tsx
lines 102-105 and 112-115, GlowyOrb lines 164-167 and 174-177):
setUploadStatus("idle"); setIsUploading(false). -/
def resetStatusTimeout (s : OrbState) : OrbState :=
  { s with uploadStatus := UploadStatus.idle,
           isUploading := false,
           timeoutDelay := none }

/-- handleMouseDown (voice-recorder.tsx lines 134-137, GlowyOrb lines
196-199): setIsHolding(true); startRecording().  startRecording immediately
awaits getUserMedia, so a begin gesture issues one acquisition request and
suspends; there is no guard against re-entry. -/
def handleMouseDown (s : OrbState) : OrbState :=
  { s with isHolding := true,
           pendingAcq := s.pendingAcq + 1,
           acqCount := s.acqCount + 1 }

/-- handleTouchStart (voice-recorder.tsx lines 144-148, GlowyOrb lines
206-210): preventDefault, then the same body as handleMouseDown. -/
def handleTouchStart (s : OrbState) : OrbState :=
  handleMouseDown s

/-- VoiceRecorder stopRecording (voice-recorder.tsx lines 127-132): guarded on
mediaRecorderRef.current and the isRecording React flag; inside the guard it
calls MediaRecorder.stop(), which raises InvalidStateError (none) when the
recorder is already inactive. -/
def vrStopRecording (s : OrbState) : Option OrbState :=
  if s.recorder.isSome && s.isRecording then
    match s.recorder with
    | some RecState.recording =>
        some { s with recorder := some RecState.inactive,
                      isRecording := false,
                      pendingStop := true }
    | _ => none
  else some s

/-- GlowyOrb stopRecording (user-info.tsx GlowyOrb lines 189-194): guarded on
mediaRecorderRef.current.state === "recording" checked directly, so stop() is
only ever called on a recording recorder and cannot throw. -/
def orbStopRecording (s : OrbState) : OrbState :=
  if s.recorder = some RecState.recording then
    { s with recorder := some RecState.inactive,
             isRecording := false,
             pendingStop := true }
  else s

/-- VoiceRecorder handleMouseUp (voice-recorder.tsx lines 139-142, also bound
to onMouseLeave): setIsHolding(false); stopRecording(). -/
def handleMouseUp (s : OrbState) : Option OrbState :=
  vrStopRecording { s with isHolding := false }

/-- GlowyOrb handleMouseUp (user-info.tsx GlowyOrb lines 201-204, also bound
to onMouseLeave): setIsHolding(false); stopRecording() with the direct
recorder-state guard. -/
def orbHandleMouseUp (s : OrbState) : OrbState :=
  orbStopRecording { s with isHolding := false }

/-- VoiceRecorder handleTouchEnd (voice-recorder.tsx lines 150-154):
preventDefault, then the same body as handleMouseUp. -/
def handleTouchEnd (s : OrbState) : Option OrbState :=
  handleMouseUp s

/-- GlowyOrb handleKeyDown (user-info.tsx GlowyOrb lines 222-234): on Space,
when the closure flag isKeyHolding is not set, and the recorder is not
currently in state "recording", set the flags and call startRecording;
otherwise ignore the event entirely.  Only runs while the document listeners
are attached. -/
def handleKeyDown (s : OrbState) : OrbState :=
  if s.listeners then
    if s.isKeyHolding then s
    else if s.recorder = some RecState.recording then s
    else { s with isKeyHolding := true,
                  isHolding := true,
                  pendingAcq := s.pendingAcq + 1,
                  acqCount := s.acqCount + 1 }
  else s

/-- GlowyOrb handleKeyUp (user-info.tsx GlowyOrb lines 236-247): on Space with
isKeyHolding set, clear the flags, then stop the recorder only when its state
is "recording" (checked directly, avoiding the stale closure).  Without
isKeyHolding the event is ignored. -/
def handleKeyUp (s : OrbState) : OrbState :=
  if s.listeners && s.isKeyHolding then
    let s1 := { s with isKeyHolding := false, isHolding := false }
    if s1.recorder = some RecState.recording then
      { s1 with recorder := some RecState.inactive,
                isRecording := false,
                pendingStop := true }
    else s1
  else s

/-- Unmount cleanup: the keyboard effect cleanup removes the document
listeners (GlowyOrb lines 252-255), and the recording cleanup effect
(voice-recorder.tsx lines 157-166, GlowyOrb lines 259-268) stops the recorder
when mediaRecorderRef.current is set and isRecording holds (stop() on an
inactive recorder raises, modelled none), then cancels any pending animation
frame.  Neither cleanup updates React state. -/
def unmountCleanup (s : OrbState) : Option OrbState :=
  let s0 := { s with mounted := false, listeners := false }
  if s.recorder.isSome && s.isRecording then
    match s.recorder with
    | some RecState.recording =>
        some { s0 with recorder := some RecState.inactive,
                       pendingStop := true,
                       animFrame := false }
    | _ => none
  else some { s0 with animFrame := false }

/-- One scheduling step: dispatch an event to its handler.  Gesture handlers
fire only while the component is mounted (the button and the document
listeners exist only then); asynchronous completions fire only when the
corresponding operation is pending; a tick fires only when a scheduled frame
is still pending (a cancelled frame id never invokes its callback). -/
def step (s : OrbState) (e : Ev) : Option OrbState :=
  match e with
  | Ev.mouseDown => some (if s.mounted then handleMouseDown s else s)
  | Ev.touchStart => some (if s.mounted then handleTouchStart s else s)
  | Ev.mouseUp => if s.mounted then handleMouseUp s else some s
  | Ev.touchEnd => if s.mounted then handleTouchEnd s else some s
  | Ev.keyDown => some (handleKeyDown s)
  | Ev.keyUp => some (handleKeyUp s)
  | Ev.grantOk buf => some (if 0 < s.pendingAcq then startRecordingGranted buf s else s)
  | Ev.grantNoRec buf => some (if 0 < s.pendingAcq then startRecordingRecorderThrow buf s else s)
  | Ev.deny => some (if 0 < s.pendingAcq then startRecordingCatch s else s)
  | Ev.tick buf =>
      if s.animFrame then updateAudioLevel buf { s with animFrame := false } else some s
  | Ev.dataAvail c => some (if s.recorder.isSome then onDataAvailable c s else s)
  | Ev.stopFire => some (if s.pendingStop then onStop s else s)
  | Ev.uploadOk => some (if s.pendingUpload then onStopUploadSettled true s else s)
  | Ev.uploadErr => some (if s.pendingUpload then onStopUploadSettled false s else s)
  | Ev.timeout => some (if s.timeoutDelay.isSome then resetStatusTimeout s else s)
  | Ev.unmount => if s.mounted then unmountCleanup s else some s

/-- Run a list of events from a state; none once any handler raises. -/
def run (s : OrbState) : List Ev → Option OrbState
  | [] => some s
  | e :: evs =>
      match step s e with
      | some s1 => run s1 evs
      | none => none

/-- The freshly mounted component state. -/
def init : OrbState :=
  { isRecording := false, isHolding := false, audioLevel := 0,
    isUploading := false, uploadStatus := UploadStatus.idle,
    recorder := none, chunks := [], analyser := false, animFrame := false,
    isKeyHolding := false, listeners := true, mounted := true,
    pendingAcq := 0, pendingStop := false, pendingUpload := false,
    timeoutDelay := none, acqCount := 0, liveStreams := 0,
    uploads := [], alerted := false }

/-- A state in which space is held and the recorder is recording; used as a
concrete instance. -/
def keyHoldingRecordingState : OrbState :=
  { init with isKeyHolding := true, recorder := some RecState.recording }

/-- A concrete mid-recording state: stream granted (one live stream),
analyser connected, a frame pending, recorder recording. -/
def midRecordingState : OrbState :=
  { init with isRecording := true, recorder := some RecState.recording,
              liveStreams := 1, analyser := true, animFrame := true }

/-- A concrete state holding both input modalities after the recorder has
already stopped. -/
def stoppedHoldingState : OrbState :=
  { init with isHolding := true, isKeyHolding := true,
              recorder := some RecState.inactive }

/-- The state reached by a begin gesture followed by a denied acquisition. -/
def deniedState : OrbState :=
  { init with isHolding := true, acqCount := 1, alerted := true }

/-- The state after a begin gesture and a granted acquisition whose initial
visualization sample published level l: recorder recording, analyser
connected, one live stream, a frame pending. -/
def grantedState (l : ℚ) : OrbState :=
  { init with isRecording := true, isHolding := true, audioLevel := l,
              recorder := some RecState.recording, analyser := true,
              animFrame := true, acqCount := 1, liveStreams := 1 }

/-- The state after the end gesture from grantedState: the recorder is
stopped and its onstop is pending, but the visualization frame is still
scheduled and the level still published. -/
def stoppingState (l : ℚ) : OrbState :=
  { grantedState l with isRecording := false, isHolding := false,
                        recorder := some RecState.inactive, pendingStop := true }

/-! Upload pipeline: src/frontend/lib/api-client.ts (authenticated variant,
the second document), function uploadVoiceRecording, lines 66-102. -/

/-- JSON body of a successful upload response. -/
structure UploadResponse where
  success : Bool
  message : String
  filename : Option String
  size : Option ℕ
  timestamp : Option String
  deriving DecidableEq, Repr

/-- Outcome of the single fetch call: either the promise rejects at the
network/transport level, or a response arrives with a status code, a status
text and (when parsed) a JSON body. -/
inductive FetchOutcome
  | networkFailure
  | response (status : ℕ) (statusText : String) (body : UploadResponse)
  deriving DecidableEq, Repr

/-- Errors that uploadVoiceRecording lets escape to its caller: the ApiError
it throws for a non-ok response (carrying the status code, api-client.ts
lines 94-99), or the fetch rejection that propagates unchanged on a
network-level abort. -/
inductive UploadError
  | apiError (message : String) (status : ℕ)
  | networkError
  deriving DecidableEq, Repr

/-- Response.ok of the fetch API: status in the inclusive range 200-299. -/
def respOk (status : ℕ) : Bool :=
  200 ≤ status && status ≤ 299

/-- uploadVoiceRecording (api-client.ts lines 66-102): performs the single
fetch of the multipart artifact and classifies the outcome.  A rejected fetch
propagates as a transport failure; a non-ok response is thrown as
ApiError(message, status); an ok response resolves to the parsed JSON body.
There is no retry inside the function. -/
def uploadVoiceRecording (fetched : FetchOutcome) : Except UploadError UploadResponse :=
  match fetched with
  | FetchOutcome.networkFailure => Except.error UploadError.networkError
  | FetchOutcome.response status statusText body =>
      if respOk status then Except.ok body
      else Except.error (UploadError.apiError ("Failed to upload recording: " ++ statusText) status)

/-- Observable reason of an upload error: the HTTP status carried by the
thrown ApiError, or none for a network-level abort. -/
def errStatus : UploadError → Option ℕ
  | UploadError.apiError _ status => some status
  | UploadError.networkError => none

/-! Helper lemmas. -/

theorem foldl_add_eq_add_sum (xs : List ℕ) : ∀ x : ℕ, xs.foldl (· + ·) x = x + xs.sum := by
  induction xs with
  | nil => intro x; simp
  | cons y ys ih => intro x; simp [List.foldl_cons, ih, List.sum_cons]; ring

theorem jsReduceAdd_of_ne_nil (buf : List ℕ) (h : buf ≠ []) :
    jsReduceAdd buf = some buf.sum := by
  cases buf with
  | nil => exact absurd rfl h
  | cons x xs => simp [jsReduceAdd, foldl_add_eq_add_sum, List.sum_cons]

theorem tickLevel_of_ne_nil (buf : List ℕ) (h : buf ≠ []) :
    tickLevel buf = some (((buf.sum : ℚ) / buf.length) / 255) := by
  simp [tickLevel, jsReduceAdd_of_ne_nil buf h]

theorem tickLevel_isSome_of_ne_nil (buf : List ℕ) (h : buf ≠ []) :
    ∃ l, tickLevel buf = some l := ⟨_, tickLevel_of_ne_nil buf h⟩

/-- Events that may occur while a recorder session is live between acquisition
success and the finalize notification: visualization ticks (whose buffer is
the dataArray of length frequencyBinCount = fftSize / 2 = 128, fftSize being
set to 256 in both components) and recorder data deliveries. -/
def isMidEv : Ev → Bool
  | Ev.tick buf => buf.length == 128
  | Ev.dataAvail _ => true
  | _ => false

/-- The chunk payloads delivered by the recorder along a trace, in order. -/
def dataOf (evs : List Ev) : List (List ℕ) :=
  evs.filterMap (fun e => match e with | Ev.dataAvail c => some c | _ => none)

/-- The chunks that ondataavailable actually pushes: those with size > 0. -/
def keptChunks (l : List (List ℕ)) : List (List ℕ) :=
  l.filter (fun c => 0 < c.length)

/-- Events that are not a begin gesture (mouse down, touch start, key down). -/
def noBeginEv : Ev → Bool
  | Ev.mouseDown => false
  | Ev.touchStart => false
  | Ev.keyDown => false
  | _ => true

theorem keptChunks_flatten (l : List (List ℕ)) : (keptChunks l).flatten = l.flatten := by
  induction l with
  | nil => rfl
  | cons c t ih =>
      simp only [keptChunks] at ih ⊢
      by_cases hc : 0 < c.length
      · simp [List.filter_cons, hc, ih]
      · have hnil : c = [] := List.length_eq_zero.mp (by omega)
        subst hnil
        simp [List.filter_cons, ih]

theorem dataOf_append (l1 l2 : List Ev) : dataOf (l1 ++ l2) = dataOf l1 ++ dataOf l2 :=
  List.filterMap_append l1 l2 _

theorem keptChunks_append (l1 l2 : List (List ℕ)) :
    keptChunks (l1 ++ l2) = keptChunks l1 ++ keptChunks l2 :=
  List.filter_append _ _

theorem run_cons_of_step {s s1 : OrbState} (e : Ev) (t : List Ev)
    (h : step s e = some s1) : run s (e :: t) = run s1 t := by
  rw [run, h]

theorem dataOf_cons_tick (buf : List ℕ) (t : List Ev) :
    dataOf (Ev.tick buf :: t) = dataOf t := rfl

theorem dataOf_cons_data (c : List ℕ) (t : List Ev) :
    dataOf (Ev.dataAvail c :: t) = c :: dataOf t := rfl

theorem run_append (l1 l2 : List Ev) :
    ∀ s : OrbState, run s (l1 ++ l2) = (run s l1).bind (fun s1 => run s1 l2) := by
  induction l1 with
  | nil => intro s; simp [run]
  | cons e t ih =>
      intro s
      show run s (e :: (t ++ l2)) = _
      rw [run, run]
      cases step s e with
      | none => rfl
      | some s1 => exact ih s1

/-- Running a sequence of in-session events (ticks with the 128-byte sample
buffer, data deliveries) from any state whose analyser is connected, whose
visualization frame is pending and whose recorder ref is set changes only the
published level and appends exactly the non-empty delivered chunks, in order,
to audioChunksRef. -/
theorem run_mid (evs : List Ev) :
    ∀ s : OrbState, (∀ e ∈ evs, isMidEv e = true) →
    s.analyser = true → s.animFrame = true → s.recorder.isSome = true →
    ∃ l : ℚ, run s evs =
      some { s with audioLevel := l, chunks := s.chunks ++ keptChunks (dataOf evs) } := by
  induction evs with
  | nil =>
      intro s _ _ _ _
      exact ⟨s.audioLevel, by simp [run, dataOf, keptChunks]⟩
  | cons e t ih =>
      intro s hm ha hf hr
      have hmT : ∀ x ∈ t, isMidEv x = true := fun x hx => hm x (List.mem_cons_of_mem e hx)
      have hmE : isMidEv e = true := hm e (List.mem_cons_self e t)
      cases e with
      | tick buf =>
          have hne : buf ≠ [] := by
            have : buf.length = 128 := by simpa [isMidEv] using hmE
            exact List.ne_nil_of_length_pos (by omega)
          obtain ⟨l0, hl0⟩ := tickLevel_isSome_of_ne_nil buf hne
          have hstep : step s (Ev.tick buf) =
              some { s with audioLevel := l0, animFrame := true } := by
            simp [step, hf, updateAudioLevel, ha, hl0]
          obtain ⟨l, hl⟩ := ih { s with audioLevel := l0, animFrame := true } hmT
            (by simp [ha]) (by simp) (by simp [hr])
          refine ⟨l, ?_⟩
          rw [run_cons_of_step _ _ hstep, hl]
          simp [dataOf_cons_tick, hf]
      | dataAvail c =>
          by_cases hc : 0 < c.length
          · have hstep : step s (Ev.dataAvail c) =
                some { s with chunks := s.chunks ++ [c] } := by
              simp [step, hr, onDataAvailable, hc]
            obtain ⟨l, hl⟩ := ih { s with chunks := s.chunks ++ [c] } hmT
              (by simp [ha]) (by simp [hf]) (by simp [hr])
            refine ⟨l, ?_⟩
            rw [run_cons_of_step _ _ hstep, hl]
            simp [dataOf_cons_data, keptChunks, List.filter_cons, hc]
          · have hstep : step s (Ev.dataAvail c) = some s := by
              simp [step, hr, onDataAvailable, hc]
            obtain ⟨l, hl⟩ := ih s hmT ha hf hr
            refine ⟨l, ?_⟩
            rw [run_cons_of_step _ _ hstep, hl]
            simp [dataOf_cons_data, keptChunks, List.filter_cons, hc]
      | mouseDown => simp [isMidEv] at hmE
      | touchStart => simp [isMidEv] at hmE
      | mouseUp => simp [isMidEv] at hmE
      | touchEnd => simp [isMidEv] at hmE
      | keyDown => simp [isMidEv] at hmE
      | keyUp => simp [isMidEv] at hmE
      | grantOk buf => simp [isMidEv] at hmE
      | grantNoRec buf => simp [isMidEv] at hmE
      | deny => simp [isMidEv] at hmE
      | stopFire => simp [isMidEv] at hmE
      | uploadOk => simp [isMidEv] at hmE
      | uploadErr => simp [isMidEv] at hmE
      | timeout => simp [isMidEv] at hmE
      | unmount => simp [isMidEv] at hmE

/-- Single-step preservation in a quiescent configuration: from a state with
no outstanding acquisition, no queued onstop, and a recorder that is not
recording, any non-begin event keeps those facts, issues no acquisition,
stops no stream, hands over no artifact, and, when no visualization frame was
pending, neither schedules one nor writes the level. -/
theorem step_quiescent (s s1 : OrbState) (e : Ev) (hne : noBeginEv e = true)
    (h1 : s.pendingAcq = 0) (h2 : s.pendingStop = false)
    (h3 : s.recorder ≠ some RecState.recording)
    (hstep : step s e = some s1) :
    s1.pendingAcq = 0 ∧ s1.pendingStop = false ∧
    s1.recorder ≠ some RecState.recording ∧
    s1.uploads = s.uploads ∧ s1.liveStreams = s.liveStreams ∧
    s1.acqCount = s.acqCount ∧
    (s.animFrame = false → s1.animFrame = false ∧ s1.audioLevel = s.audioLevel) := by
  cases e with
  | mouseDown => simp [noBeginEv] at hne
  | touchStart => simp [noBeginEv] at hne
  | keyDown => simp [noBeginEv] at hne
  | mouseUp =>
      simp only [step] at hstep
      cases hm : s.mounted with
      | false =>
          rw [hm] at hstep
          simp only [Bool.false_eq_true, if_false, Option.some.injEq] at hstep
          subst hstep
          exact ⟨h1, h2, h3, rfl, rfl, rfl, fun h => ⟨h, rfl⟩⟩
      | true =>
          rw [hm] at hstep
          simp only [if_true, handleMouseUp, vrStopRecording] at hstep
          rcases hr : s.recorder with _ | r
          · rw [hr] at hstep
            simp only [Option.isSome_none, Bool.false_and, Bool.false_eq_true, if_false,
              Option.some.injEq] at hstep
            subst hstep
            refine ⟨h1, h2, by simp [hr], rfl, rfl, rfl, fun h => ⟨h, rfl⟩⟩
          · cases r with
            | recording => exact absurd hr h3
            | inactive =>
                rw [hr] at hstep
                cases hrec : s.isRecording with
                | true =>
                    rw [hrec] at hstep
                    simp at hstep
                | false =>
                    rw [hrec] at hstep
                    simp only [Option.isSome_some, Bool.true_and, Bool.false_eq_true, if_false,
                      Option.some.injEq] at hstep
                    subst hstep
                    refine ⟨h1, h2, by simp [hr], rfl, rfl, rfl, fun h => ⟨h, rfl⟩⟩
  | touchEnd =>
      simp only [step] at hstep
      cases hm : s.mounted with
      | false =>
          rw [hm] at hstep
          simp only [Bool.false_eq_true, if_false, Option.some.injEq] at hstep
          subst hstep
          exact ⟨h1, h2, h3, rfl, rfl, rfl, fun h => ⟨h, rfl⟩⟩
      | true =>
          rw [hm] at hstep
          simp only [if_true, handleTouchEnd, handleMouseUp, vrStopRecording] at hstep
          rcases hr : s.recorder with _ | r
          · rw [hr] at hstep
            simp only [Option.isSome_none, Bool.false_and, Bool.false_eq_true, if_false,
              Option.some.injEq] at hstep
            subst hstep
            refine ⟨h1, h2, by simp [hr], rfl, rfl, rfl, fun h => ⟨h, rfl⟩⟩
          · cases r with
            | recording => exact absurd hr h3
            | inactive =>
                rw [hr] at hstep
                cases hrec : s.isRecording with
                | true =>
                    rw [hrec] at hstep
                    simp at hstep
                | false =>
                    rw [hrec] at hstep
                    simp only [Option.isSome_some, Bool.true_and, Bool.false_eq_true, if_false,
                      Option.some.injEq] at hstep
                    subst hstep
                    refine ⟨h1, h2, by simp [hr], rfl, rfl, rfl, fun h => ⟨h, rfl⟩⟩
  | keyUp =>
      simp only [step, handleKeyUp, Option.some.injEq] at hstep
      by_cases hk : s.listeners && s.isKeyHolding
      · rw [if_pos hk] at hstep
        rw [if_neg (by simpa using h3)] at hstep
        subst hstep
        refine ⟨h1, h2, by simpa using h3, rfl, rfl, rfl, fun h => ⟨h, rfl⟩⟩
      · rw [if_neg hk] at hstep
        subst hstep
        exact ⟨h1, h2, h3, rfl, rfl, rfl, fun h => ⟨h, rfl⟩⟩
  | grantOk buf =>
      simp only [step, h1, Nat.lt_irrefl, if_false, Option.some.injEq] at hstep
      subst hstep
      exact ⟨h1, h2, h3, rfl, rfl, rfl, fun h => ⟨h, rfl⟩⟩
  | grantNoRec buf =>
      simp only [step, h1, Nat.lt_irrefl, if_false, Option.some.injEq] at hstep
      subst hstep
      exact ⟨h1, h2, h3, rfl, rfl, rfl, fun h => ⟨h, rfl⟩⟩
  | deny =>
      simp only [step, h1, Nat.lt_irrefl, if_false, Option.some.injEq] at hstep
      subst hstep
      exact ⟨h1, h2, h3, rfl, rfl, rfl, fun h => ⟨h, rfl⟩⟩
  | tick buf =>
      simp only [step] at hstep
      cases hf : s.animFrame with
      | false =>
          rw [hf] at hstep
          simp only [Bool.false_eq_true, if_false, Option.some.injEq] at hstep
          subst hstep
          exact ⟨h1, h2, h3, rfl, rfl, rfl, fun _ => ⟨hf, rfl⟩⟩
      | true =>
          rw [hf] at hstep
          simp only [if_true, updateAudioLevel] at hstep
          cases ha : s.analyser with
          | false =>
              rw [ha] at hstep
              simp only [Bool.false_eq_true, if_false, Option.some.injEq] at hstep
              subst hstep
              exact ⟨h1, h2, h3, rfl, rfl, rfl, fun h => absurd h (by simp)⟩
          | true =>
              rw [ha] at hstep
              cases ht : tickLevel buf with
              | none =>
                  rw [ht] at hstep
                  simp at hstep
              | some l =>
                  rw [ht] at hstep
                  simp only [if_true, Option.some.injEq] at hstep
                  subst hstep
                  exact ⟨h1, h2, h3, rfl, rfl, rfl, fun h => absurd h (by simp)⟩
  | dataAvail c =>
      simp only [step, onDataAvailable, Option.some.injEq] at hstep
      by_cases hr : s.recorder.isSome
      · rw [if_pos hr] at hstep
        by_cases hc : 0 < c.length
        · rw [if_pos hc] at hstep
          subst hstep
          exact ⟨h1, h2, h3, rfl, rfl, rfl, fun h => ⟨h, rfl⟩⟩
        · rw [if_neg hc] at hstep
          subst hstep
          exact ⟨h1, h2, h3, rfl, rfl, rfl, fun h => ⟨h, rfl⟩⟩
      · rw [if_neg hr] at hstep
        subst hstep
        exact ⟨h1, h2, h3, rfl, rfl, rfl, fun h => ⟨h, rfl⟩⟩
  | stopFire =>
      simp only [step, h2, Bool.false_eq_true, if_false, Option.some.injEq] at hstep
      subst hstep
      exact ⟨h1, h2, h3, rfl, rfl, rfl, fun h => ⟨h, rfl⟩⟩
  | uploadOk =>
      simp only [step, onStopUploadSettled, Option.some.injEq] at hstep
      by_cases hp : s.pendingUpload = true
      · rw [if_pos hp] at hstep
        subst hstep
        exact ⟨h1, h2, h3, rfl, rfl, rfl, fun h => ⟨h, rfl⟩⟩
      · rw [if_neg hp] at hstep
        subst hstep
        exact ⟨h1, h2, h3, rfl, rfl, rfl, fun h => ⟨h, rfl⟩⟩
  | uploadErr =>
      simp only [step, onStopUploadSettled, Option.some.injEq] at hstep
      by_cases hp : s.pendingUpload = true
      · rw [if_pos hp] at hstep
        subst hstep
        exact ⟨h1, h2, h3, rfl, rfl, rfl, fun h => ⟨h, rfl⟩⟩
      · rw [if_neg hp] at hstep
        subst hstep
        exact ⟨h1, h2, h3, rfl, rfl, rfl, fun h => ⟨h, rfl⟩⟩
  | timeout =>
      simp only [step, resetStatusTimeout, Option.some.injEq] at hstep
      by_cases hp : s.timeoutDelay.isSome
      · rw [if_pos hp] at hstep
        subst hstep
        exact ⟨h1, h2, h3, rfl, rfl, rfl, fun h => ⟨h, rfl⟩⟩
      · rw [if_neg hp] at hstep
        subst hstep
        exact ⟨h1, h2, h3, rfl, rfl, rfl, fun h => ⟨h, rfl⟩⟩
  | unmount =>
      simp only [step] at hstep
      cases hm : s.mounted with
      | false =>
          rw [hm] at hstep
          simp only [Bool.false_eq_true, if_false, Option.some.injEq] at hstep
          subst hstep
          exact ⟨h1, h2, h3, rfl, rfl, rfl, fun h => ⟨h, rfl⟩⟩
      | true =>
          rw [hm] at hstep
          simp only [if_true, unmountCleanup] at hstep
          rcases hr : s.recorder with _ | r
          · rw [hr] at hstep
            simp only [Option.isSome_none, Bool.false_and, Bool.false_eq_true, if_false,
              Option.some.injEq] at hstep
            subst hstep
            exact ⟨h1, h2, by simp [hr], rfl, rfl, rfl, fun h => ⟨rfl, rfl⟩⟩
          · cases r with
            | recording => exact absurd hr h3
            | inactive =>
                rw [hr] at hstep
                cases hrec : s.isRecording with
                | true =>
                    rw [hrec] at hstep
                    simp at hstep
                | false =>
                    rw [hrec] at hstep
                    simp only [Option.isSome_some, Bool.true_and, Bool.false_eq_true, if_false,
                      Option.some.injEq] at hstep
                    subst hstep
                    exact ⟨h1, h2, by simp [hr], rfl, rfl, rfl, fun h => ⟨rfl, rfl⟩⟩

/-- Running any sequence of non-begin events from a quiescent configuration
issues no acquisition, hands over no artifact, stops no stream, and, when no
visualization frame was pending at the start, never writes the level and
never schedules a frame. -/
theorem run_quiescent (evs : List Ev) :
    ∀ s s1 : OrbState, (∀ e ∈ evs, noBeginEv e = true) →
    s.pendingAcq = 0 → s.pendingStop = false →
    s.recorder ≠ some RecState.recording →
    run s evs = some s1 →
    s1.pendingAcq = 0 ∧ s1.pendingStop = false ∧
    s1.recorder ≠ some RecState.recording ∧
    s1.uploads = s.uploads ∧ s1.liveStreams = s.liveStreams ∧
    s1.acqCount = s.acqCount ∧
    (s.animFrame = false → s1.animFrame = false ∧ s1.audioLevel = s.audioLevel) := by
  induction evs with
  | nil =>
      intro s s1 _ h1 h2 h3 hrun
      rw [run, Option.some.injEq] at hrun
      subst hrun
      exact ⟨h1, h2, h3, rfl, rfl, rfl, fun h => ⟨h, rfl⟩⟩
  | cons e t ih =>
      intro s s1 hnb h1 h2 h3 hrun
      have hnbT : ∀ x ∈ t, noBeginEv x = true := fun x hx => hnb x (List.mem_cons_of_mem e hx)
      have hnbE : noBeginEv e = true := hnb e (List.mem_cons_self e t)
      rw [run] at hrun
      cases hs : step s e with
      | none => rw [hs] at hrun; simp at hrun
      | some s2 =>
          rw [hs] at hrun
          simp only at hrun
          obtain ⟨p1, p2, p3, p4, p5, p6, p7⟩ := step_quiescent s s2 e hnbE h1 h2 h3 hs
          obtain ⟨q1, q2, q3, q4, q5, q6, q7⟩ := ih s2 s1 hnbT p1 p2 p3 hrun
          refine ⟨q1, q2, q3, q4.trans p4, q5.trans p5, q6.trans p6, fun h => ?_⟩
          obtain ⟨f1, f2⟩ := p7 h
          obtain ⟨g1, g2⟩ := q7 f1
          exact ⟨g1, g2.trans f2⟩

theorem step_mouseDown_mounted (s : OrbState) (h : s.mounted = true) :
    step s Ev.mouseDown = some (handleMouseDown s) := by
  simp [step, h]

theorem step_stopFire_pending (s : OrbState) (h : s.pendingStop = true) :
    step s Ev.stopFire = some (onStop s) := by
  simp [step, h]

theorem step_grantOk_facts (s : OrbState) (buf : List ℕ)
    (hp : 0 < s.pendingAcq) (hbuf : buf ≠ []) :
    ∃ s2, step s (Ev.grantOk buf) = some s2 ∧
      s2.analyser = true ∧ s2.animFrame = true ∧
      s2.recorder = some RecState.recording ∧ s2.chunks = [] ∧
      s2.isRecording = true ∧ s2.pendingAcq = s.pendingAcq - 1 ∧
      s2.liveStreams = s.liveStreams + 1 ∧ s2.uploads = s.uploads ∧
      s2.mounted = s.mounted ∧ s2.acqCount = s.acqCount ∧
      s2.pendingStop = s.pendingStop ∧ s2.pendingUpload = s.pendingUpload ∧
      s2.isUploading = s.isUploading ∧ s2.uploadStatus = s.uploadStatus := by
  obtain ⟨l, hl⟩ := tickLevel_isSome_of_ne_nil buf hbuf
  have hstep : step s (Ev.grantOk buf) =
      some { s with pendingAcq := s.pendingAcq - 1, liveStreams := s.liveStreams + 1,
                    analyser := true, audioLevel := l, animFrame := true,
                    recorder := some RecState.recording, chunks := [],
                    isRecording := true } := by
    simp [step, hp, startRecordingGranted, hl]
  exact ⟨_, hstep, rfl, rfl, rfl, rfl, rfl, rfl, rfl, rfl, rfl, rfl, rfl, rfl, rfl, rfl⟩

theorem step_mouseUp_facts (s : OrbState) (hm : s.mounted = true)
    (hrec : s.recorder = some RecState.recording) (hr : s.isRecording = true) :
    ∃ s2, step s Ev.mouseUp = some s2 ∧
      s2.recorder = some RecState.inactive ∧ s2.isRecording = false ∧
      s2.pendingStop = true ∧ s2.chunks = s.chunks ∧ s2.uploads = s.uploads ∧
      s2.liveStreams = s.liveStreams ∧ s2.animFrame = s.animFrame ∧
      s2.analyser = s.analyser ∧ s2.pendingAcq = s.pendingAcq ∧
      s2.mounted = true ∧ s2.acqCount = s.acqCount ∧
      s2.pendingUpload = s.pendingUpload ∧ s2.isUploading = s.isUploading ∧
      s2.uploadStatus = s.uploadStatus := by
  have hstep : step s Ev.mouseUp =
      some { s with isHolding := false, recorder := some RecState.inactive,
                    isRecording := false, pendingStop := true } := by
    simp [step, hm, handleMouseUp, vrStopRecording, hrec, hr]
  exact ⟨_, hstep, rfl, rfl, rfl, rfl, rfl, rfl, rfl, rfl, rfl, hm, rfl, rfl, rfl, rfl⟩

theorem run_mid_facts (evs : List Ev) (s : OrbState)
    (hm : ∀ e ∈ evs, isMidEv e = true) (ha : s.analyser = true)
    (hf : s.animFrame = true) (hr : s.recorder.isSome = true) :
    ∃ s1, run s evs = some s1 ∧
      s1.chunks = s.chunks ++ keptChunks (dataOf evs) ∧
      s1.analyser = true ∧ s1.animFrame = true ∧ s1.recorder = s.recorder ∧
      s1.uploads = s.uploads ∧ s1.liveStreams = s.liveStreams ∧
      s1.pendingStop = s.pendingStop ∧ s1.pendingUpload = s.pendingUpload ∧
      s1.isRecording = s.isRecording ∧ s1.pendingAcq = s.pendingAcq ∧
      s1.mounted = s.mounted ∧ s1.acqCount = s.acqCount ∧
      s1.isUploading = s.isUploading ∧ s1.uploadStatus = s.uploadStatus := by
  obtain ⟨l, hl⟩ := run_mid evs s hm ha hf hr
  exact ⟨_, hl, rfl, ha, hf, rfl, rfl, rfl, rfl, rfl, rfl, rfl, rfl, rfl, rfl, rfl⟩

/-- Full capture cycle: begin gesture, granted acquisition, any interleaving
of ticks and data deliveries, end gesture, further deliveries during the
asynchronous flush, then the finalize (onstop) notification.  Exactly one
artifact is handed to the upload pipeline, it equals the concatenation of all
delivered chunks, the stream is released and the frame cancelled exactly at
finalize, and exactly one acquisition request was issued. -/
theorem run_cycle (buf : List ℕ) (mids1 mids2 : List Ev)
    (hbuf : buf.length = 128)
    (hm1 : ∀ e ∈ mids1, isMidEv e = true) (hm2 : ∀ e ∈ mids2, isMidEv e = true) :
    ∃ s : OrbState,
      run init ([Ev.mouseDown, Ev.grantOk buf] ++ mids1 ++ [Ev.mouseUp] ++ mids2
        ++ [Ev.stopFire]) = some s ∧
      s.uploads = [(dataOf (mids1 ++ mids2)).flatten] ∧
      s.chunks = keptChunks (dataOf (mids1 ++ mids2)) ∧
      s.pendingAcq = 0 ∧ s.pendingStop = false ∧
      s.recorder = some RecState.inactive ∧ s.animFrame = false ∧
      s.audioLevel = 0 ∧ s.liveStreams = 0 ∧ s.pendingUpload = true ∧
      s.isRecording = false ∧ s.isUploading = true ∧ s.acqCount = 1 ∧
      s.uploadStatus = UploadStatus.idle ∧ s.mounted = true := by
  have hne : buf ≠ [] := List.ne_nil_of_length_pos (by omega)
  have htrace :
      [Ev.mouseDown, Ev.grantOk buf] ++ mids1 ++ [Ev.mouseUp] ++ mids2 ++ [Ev.stopFire]
      = Ev.mouseDown :: Ev.grantOk buf ::
          (mids1 ++ (Ev.mouseUp :: (mids2 ++ [Ev.stopFire]))) := by
    simp
  have hA : step init Ev.mouseDown = some (handleMouseDown init) :=
    step_mouseDown_mounted init rfl
  obtain ⟨sB, hB, hBan, hBaf, hBrec, hBch, hBir, hBpa, hBls, hBup, hBmt, hBac,
    hBps, hBpu, hBiu, hBus⟩ :=
    step_grantOk_facts (handleMouseDown init) buf (by simp [handleMouseDown, init]) hne
  obtain ⟨sC, hC, hCch, hCan, hCaf, hCrec, hCup, hCls, hCps, hCpu, hCir, hCpa,
    hCmt, hCac, hCiu, hCus⟩ :=
    run_mid_facts mids1 sB hm1 hBan hBaf (by simp [hBrec])
  obtain ⟨sD, hD, hDrec, hDir, hDps, hDch, hDup, hDls, hDaf, hDan, hDpa, hDmt,
    hDac, hDpu, hDiu, hDus⟩ :=
    step_mouseUp_facts sC (by rw [hCmt, hBmt]; simp [handleMouseDown, init])
      (by rw [hCrec, hBrec]) (by rw [hCir, hBir])
  obtain ⟨sE, hE, hEch, hEan, hEaf, hErec, hEup, hEls, hEps, hEpu, hEir, hEpa,
    hEmt, hEac, hEiu, hEus⟩ :=
    run_mid_facts mids2 sD hm2 (by rw [hDan, hCan]) (by rw [hDaf, hCaf]) (by simp [hDrec])
  have hF : step sE Ev.stopFire = some (onStop sE) :=
    step_stopFire_pending sE (by rw [hEps, hDps])
  refine ⟨onStop sE, ?_, ?_, ?_, ?_, ?_, ?_, ?_, ?_, ?_, ?_, ?_, ?_, ?_, ?_, ?_⟩
  · rw [htrace, run_cons_of_step _ _ hA, run_cons_of_step _ _ hB, run_append, hC,
      Option.some_bind, run_cons_of_step _ _ hD, run_append, hE, Option.some_bind,
      run_cons_of_step _ _ hF]
    rfl
  · show (onStop sE).uploads = _
    have hchain : sE.chunks = keptChunks (dataOf (mids1 ++ mids2)) := by
      rw [hEch, hDch, hCch, hBch, dataOf_append, keptChunks_append]
      simp
    have huploads : sE.uploads = [] := by
      rw [hEup, hDup, hCup, hBup]
      simp [handleMouseDown, init]
    simp [onStop, huploads, hchain, keptChunks_flatten]
  · show (onStop sE).chunks = _
    have hchain : sE.chunks = keptChunks (dataOf (mids1 ++ mids2)) := by
      rw [hEch, hDch, hCch, hBch, dataOf_append, keptChunks_append]
      simp
    simp [onStop, hchain]
  · show (onStop sE).pendingAcq = 0
    have : sE.pendingAcq = 0 := by
      rw [hEpa, hDpa, hCpa, hBpa]
      simp [handleMouseDown, init]
    simp [onStop, this]
  · show (onStop sE).pendingStop = false
    simp [onStop]
  · show (onStop sE).recorder = some RecState.inactive
    have : sE.recorder = some RecState.inactive := by rw [hErec, hDrec]
    simp [onStop, this]
  · show (onStop sE).animFrame = false
    simp [onStop]
  · show (onStop sE).audioLevel = 0
    simp [onStop]
  · show (onStop sE).liveStreams = 0
    have : sE.liveStreams = 1 := by
      rw [hEls, hDls, hCls, hBls]
      simp [handleMouseDown, init]
    simp [onStop, this]
  · show (onStop sE).pendingUpload = true
    simp [onStop]
  · show (onStop sE).isRecording = false
    have : sE.isRecording = false := by rw [hEir, hDir]
    simp [onStop, this]
  · show (onStop sE).isUploading = true
    simp [onStop]
  · show (onStop sE).acqCount = 1
    have : sE.acqCount = 1 := by
      rw [hEac, hDac, hCac, hBac]
      simp [handleMouseDown, init]
    simp [onStop, this]
  · show (onStop sE).uploadStatus = UploadStatus.idle
    simp [onStop]
  · show (onStop sE).mounted = true
    have : sE.mounted = true := by rw [hEmt, hDmt]
    simp [onStop, this]

/-- Single-step totality and preservation in an idle-like configuration: with
no outstanding acquisition, no queued onstop, a non-recording recorder, no
pending frame and isRecording clear, every non-begin event succeeds (no
handler throws) and preserves all of those facts together with the level, the
upload log, the live stream count and the acquisition count. -/
theorem step_quiescent_total (s : OrbState) (e : Ev) (hne : noBeginEv e = true)
    (h1 : s.pendingAcq = 0) (h2 : s.pendingStop = false)
    (h3 : s.recorder ≠ some RecState.recording)
    (h4 : s.animFrame = false) (h5 : s.isRecording = false) :
    ∃ s1, step s e = some s1 ∧ s1.pendingAcq = 0 ∧ s1.pendingStop = false ∧
      s1.recorder ≠ some RecState.recording ∧ s1.animFrame = false ∧
      s1.isRecording = false ∧ s1.uploads = s.uploads ∧
      s1.liveStreams = s.liveStreams ∧ s1.acqCount = s.acqCount ∧
      s1.audioLevel = s.audioLevel := by
  cases e with
  | mouseDown => simp [noBeginEv] at hne
  | touchStart => simp [noBeginEv] at hne
  | keyDown => simp [noBeginEv] at hne
  | mouseUp =>
      cases hm : s.mounted with
      | false => exact ⟨s, by simp [step, hm], h1, h2, h3, h4, h5, rfl, rfl, rfl, rfl⟩
      | true =>
          have hstep : step s Ev.mouseUp = some { s with isHolding := false } := by
            simp [step, hm, handleMouseUp, vrStopRecording, h5]
          exact ⟨_, hstep, h1, h2, h3, h4, h5, rfl, rfl, rfl, rfl⟩
  | touchEnd =>
      cases hm : s.mounted with
      | false => exact ⟨s, by simp [step, hm], h1, h2, h3, h4, h5, rfl, rfl, rfl, rfl⟩
      | true =>
          have hstep : step s Ev.touchEnd = some { s with isHolding := false } := by
            simp [step, hm, handleTouchEnd, handleMouseUp, vrStopRecording, h5]
          exact ⟨_, hstep, h1, h2, h3, h4, h5, rfl, rfl, rfl, rfl⟩
  | keyUp =>
      by_cases hk : s.listeners && s.isKeyHolding
      · have hstep : step s Ev.keyUp =
            some { s with isKeyHolding := false, isHolding := false } := by
          simp only [step, handleKeyUp, hk, if_true]
          rw [if_neg (by simpa using h3)]
        exact ⟨_, hstep, h1, h2, h3, h4, h5, rfl, rfl, rfl, rfl⟩
      · have hstep : step s Ev.keyUp = some s := by
          simp [step, handleKeyUp, hk]
        exact ⟨s, hstep, h1, h2, h3, h4, h5, rfl, rfl, rfl, rfl⟩
  | grantOk buf =>
      exact ⟨s, by simp [step, h1], h1, h2, h3, h4, h5, rfl, rfl, rfl, rfl⟩
  | grantNoRec buf =>
      exact ⟨s, by simp [step, h1], h1, h2, h3, h4, h5, rfl, rfl, rfl, rfl⟩
  | deny =>
      exact ⟨s, by simp [step, h1], h1, h2, h3, h4, h5, rfl, rfl, rfl, rfl⟩
  | tick buf =>
      exact ⟨s, by simp [step, h4], h1, h2, h3, h4, h5, rfl, rfl, rfl, rfl⟩
  | dataAvail c =>
      by_cases hr : s.recorder.isSome
      · by_cases hc : 0 < c.length
        · have hstep : step s (Ev.dataAvail c) =
              some { s with chunks := s.chunks ++ [c] } := by
            simp [step, hr, onDataAvailable, hc]
          exact ⟨_, hstep, h1, h2, h3, h4, h5, rfl, rfl, rfl, rfl⟩
        · have hstep : step s (Ev.dataAvail c) = some s := by
            simp [step, hr, onDataAvailable, hc]
          exact ⟨s, hstep, h1, h2, h3, h4, h5, rfl, rfl, rfl, rfl⟩
      · have hstep : step s (Ev.dataAvail c) = some s := by
          simp [step, onDataAvailable]
          intro h
          exact absurd h hr
        exact ⟨s, hstep, h1, h2, h3, h4, h5, rfl, rfl, rfl, rfl⟩
  | stopFire =>
      exact ⟨s, by simp [step, h2], h1, h2, h3, h4, h5, rfl, rfl, rfl, rfl⟩
  | uploadOk =>
      by_cases hp : s.pendingUpload = true
      · have hstep : step s Ev.uploadOk =
            some { s with pendingUpload := false,
                          uploadStatus := UploadStatus.success,
                          timeoutDelay := some 3000 } := by
          simp [step, hp, onStopUploadSettled]
        exact ⟨_, hstep, h1, h2, h3, h4, h5, rfl, rfl, rfl, rfl⟩
      · have hstep : step s Ev.uploadOk = some s := by
          simp [step, hp]
        exact ⟨s, hstep, h1, h2, h3, h4, h5, rfl, rfl, rfl, rfl⟩
  | uploadErr =>
      by_cases hp : s.pendingUpload = true
      · have hstep : step s Ev.uploadErr =
            some { s with pendingUpload := false,
                          uploadStatus := UploadStatus.error,
                          timeoutDelay := some 3000 } := by
          simp [step, hp, onStopUploadSettled]
        exact ⟨_, hstep, h1, h2, h3, h4, h5, rfl, rfl, rfl, rfl⟩
      · have hstep : step s Ev.uploadErr = some s := by
          simp [step, hp]
        exact ⟨s, hstep, h1, h2, h3, h4, h5, rfl, rfl, rfl, rfl⟩
  | timeout =>
      by_cases hp : s.timeoutDelay.isSome
      · have hstep : step s Ev.timeout =
            some { s with uploadStatus := UploadStatus.idle,
                          isUploading := false, timeoutDelay := none } := by
          simp [step, hp, resetStatusTimeout]
        exact ⟨_, hstep, h1, h2, h3, h4, h5, rfl, rfl, rfl, rfl⟩
      · have hstep : step s Ev.timeout = some s := by
          simp [step, hp]
        exact ⟨s, hstep, h1, h2, h3, h4, h5, rfl, rfl, rfl, rfl⟩
  | unmount =>
      cases hm : s.mounted with
      | false => exact ⟨s, by simp [step, hm], h1, h2, h3, h4, h5, rfl, rfl, rfl, rfl⟩
      | true =>
          have hstep : step s Ev.unmount =
              some { s with mounted := false, listeners := false,
                            animFrame := false } := by
            simp [step, hm, unmountCleanup, h5]
          exact ⟨_, hstep, h1, h2, h3, rfl, h5, rfl, rfl, rfl, rfl⟩

/-- Running any sequence of non-begin events from an idle-like configuration
never throws, issues no acquisition, hands over no artifact, stops no stream,
never writes the level and never schedules a visualization frame. -/
theorem run_quiescent_total (evs : List Ev) :
    ∀ s : OrbState, (∀ e ∈ evs, noBeginEv e = true) →
    s.pendingAcq = 0 → s.pendingStop = false →
    s.recorder ≠ some RecState.recording → s.animFrame = false →
    s.isRecording = false →
    ∃ s1, run s evs = some s1 ∧ s1.pendingAcq = 0 ∧ s1.pendingStop = false ∧
      s1.recorder ≠ some RecState.recording ∧ s1.animFrame = false ∧
      s1.isRecording = false ∧ s1.uploads = s.uploads ∧
      s1.liveStreams = s.liveStreams ∧ s1.acqCount = s.acqCount ∧
      s1.audioLevel = s.audioLevel := by
  induction evs with
  | nil =>
      intro s _ h1 h2 h3 h4 h5
      exact ⟨s, rfl, h1, h2, h3, h4, h5, rfl, rfl, rfl, rfl⟩
  | cons e t ih =>
      intro s hnb h1 h2 h3 h4 h5
      have hnbT : ∀ x ∈ t, noBeginEv x = true := fun x hx => hnb x (List.mem_cons_of_mem e hx)
      obtain ⟨s2, hs2, p1, p2, p3, p4, p5, p6, p7, p8, p9⟩ :=
        step_quiescent_total s e (hnb e (List.mem_cons_self e t)) h1 h2 h3 h4 h5
      obtain ⟨s1, hr, q1, q2, q3, q4, q5, q6, q7, q8, q9⟩ := ih s2 hnbT p1 p2 p3 p4 p5
      exact ⟨s1, by rw [run_cons_of_step _ _ hs2]; exact hr, q1, q2, q3, q4, q5,
        q6.trans p6, q7.trans p7, q8.trans p8, q9.trans p9⟩

/-- Invariant relating the React flag to the recorder handle: while the
component is mounted, isRecording implies the recorder ref holds a recorder
in state recording.  (Unmounting stops the recorder without a state update,
which is why the invariant is scoped to mounted components; afterwards no
gesture handler can run.) -/
def RecInv (s : OrbState) : Prop :=
  s.mounted = true → s.isRecording = true → s.recorder = some RecState.recording

theorem init_RecInv : RecInv init := by
  intro _ h
  exact absurd h (by simp [init])

/-- Every event preserves the invariant, so in every reachable state a
mounted component with isRecording set has a recorder in state recording;
this justifies considering only such states when analysing the unmount and
stop paths. -/
theorem step_RecInv (s s1 : OrbState) (e : Ev) (hinv : RecInv s)
    (hstep : step s e = some s1) : RecInv s1 := by
  cases e with
  | mouseDown =>
      simp only [step, Option.some.injEq] at hstep
      by_cases hm : s.mounted = true
      · rw [if_pos hm] at hstep
        subst hstep
        intro hm1 hr1
        exact hinv hm (by simpa [handleMouseDown] using hr1)
      · rw [if_neg hm] at hstep
        subst hstep
        exact hinv
  | touchStart =>
      simp only [step, Option.some.injEq] at hstep
      by_cases hm : s.mounted = true
      · rw [if_pos hm] at hstep
        subst hstep
        intro hm1 hr1
        exact hinv hm (by simpa [handleTouchStart, handleMouseDown] using hr1)
      · rw [if_neg hm] at hstep
        subst hstep
        exact hinv
  | mouseUp =>
      simp only [step] at hstep
      by_cases hm : s.mounted = true
      · rw [if_pos hm] at hstep
        simp only [handleMouseUp, vrStopRecording] at hstep
        rcases hr : s.recorder with _ | r
        · rw [hr] at hstep
          simp only [Option.isSome_none, Bool.false_and, Bool.false_eq_true, if_false,
            Option.some.injEq] at hstep
          subst hstep
          intro hm1 hr1
          exact absurd (hinv hm hr1) (by simp [hr])
        · cases r with
          | inactive =>
              rw [hr] at hstep
              cases hrec : s.isRecording with
              | true =>
                  rw [hrec] at hstep
                  simp at hstep
              | false =>
                  rw [hrec] at hstep
                  simp only [Option.isSome_some, Bool.true_and, Bool.false_eq_true, if_false,
                    Option.some.injEq] at hstep
                  subst hstep
                  intro hm1 hr1
                  exact absurd hr1 (by simp [hrec])
          | recording =>
              rw [hr] at hstep
              cases hrec : s.isRecording with
              | true =>
                  rw [hrec] at hstep
                  simp only [Option.isSome_some, Bool.true_and, if_true,
                    Option.some.injEq] at hstep
                  subst hstep
                  intro hm1 hr1
                  exact absurd hr1 (by simp)
              | false =>
                  rw [hrec] at hstep
                  simp only [Option.isSome_some, Bool.true_and, Bool.false_eq_true, if_false,
                    Option.some.injEq] at hstep
                  subst hstep
                  intro hm1 hr1
                  exact absurd hr1 (by simp [hrec])
      · rw [if_neg hm] at hstep
        simp only [Option.some.injEq] at hstep
        subst hstep
        exact hinv
  | touchEnd =>
      simp only [step] at hstep
      by_cases hm : s.mounted = true
      · rw [if_pos hm] at hstep
        simp only [handleTouchEnd, handleMouseUp, vrStopRecording] at hstep
        rcases hr : s.recorder with _ | r
        · rw [hr] at hstep
          simp only [Option.isSome_none, Bool.false_and, Bool.false_eq_true, if_false,
            Option.some.injEq] at hstep
          subst hstep
          intro hm1 hr1
          exact absurd (hinv hm hr1) (by simp [hr])
        · cases r with
          | inactive =>
              rw [hr] at hstep
              cases hrec : s.isRecording with
              | true =>
                  rw [hrec] at hstep
                  simp at hstep
              | false =>
                  rw [hrec] at hstep
                  simp only [Option.isSome_some, Bool.true_and, Bool.false_eq_true, if_false,
                    Option.some.injEq] at hstep
                  subst hstep
                  intro hm1 hr1
                  exact absurd hr1 (by simp [hrec])
          | recording =>
              rw [hr] at hstep
              cases hrec : s.isRecording with
              | true =>
                  rw [hrec] at hstep
                  simp only [Option.isSome_some, Bool.true_and, if_true,
                    Option.some.injEq] at hstep
                  subst hstep
                  intro hm1 hr1
                  exact absurd hr1 (by simp)
              | false =>
                  rw [hrec] at hstep
                  simp only [Option.isSome_some, Bool.true_and, Bool.false_eq_true, if_false,
                    Option.some.injEq] at hstep
                  subst hstep
                  intro hm1 hr1
                  exact absurd hr1 (by simp [hrec])
      · rw [if_neg hm] at hstep
        simp only [Option.some.injEq] at hstep
        subst hstep
        exact hinv
  | keyDown =>
      simp only [step, handleKeyDown, Option.some.injEq] at hstep
      by_cases hl : s.listeners = true
      · rw [if_pos hl] at hstep
        by_cases hk : s.isKeyHolding = true
        · rw [if_pos hk] at hstep
          subst hstep
          exact hinv
        · rw [if_neg hk] at hstep
          by_cases hrec : s.recorder = some RecState.recording
          · rw [if_pos hrec] at hstep
            subst hstep
            exact hinv
          · rw [if_neg hrec] at hstep
            subst hstep
            intro hm1 hr1
            exact hinv hm1 hr1
      · rw [if_neg hl] at hstep
        subst hstep
        exact hinv
  | keyUp =>
      simp only [step, handleKeyUp, Option.some.injEq] at hstep
      by_cases hk : s.listeners && s.isKeyHolding
      · rw [if_pos hk] at hstep
        by_cases hrec : s.recorder = some RecState.recording
        · rw [if_pos (by simpa using hrec)] at hstep
          subst hstep
          intro hm1 hr1
          exact absurd hr1 (by simp)
        · rw [if_neg (by simpa using hrec)] at hstep
          subst hstep
          intro hm1 hr1
          exact hinv hm1 hr1
      · rw [if_neg hk] at hstep
        subst hstep
        exact hinv
  | grantOk buf =>
      simp only [step, Option.some.injEq] at hstep
      by_cases hp : 0 < s.pendingAcq
      · rw [if_pos hp] at hstep
        simp only [startRecordingGranted] at hstep
        cases ht : tickLevel buf with
        | none =>
            rw [ht] at hstep
            subst hstep
            intro hm1 hr1
            exact hinv hm1 hr1
        | some l =>
            rw [ht] at hstep
            subst hstep
            intro _ _
            rfl
      · rw [if_neg hp] at hstep
        subst hstep
        exact hinv
  | grantNoRec buf =>
      simp only [step, Option.some.injEq] at hstep
      by_cases hp : 0 < s.pendingAcq
      · rw [if_pos hp] at hstep
        simp only [startRecordingRecorderThrow] at hstep
        cases ht : tickLevel buf with
        | none =>
            rw [ht] at hstep
            subst hstep
            intro hm1 hr1
            exact hinv hm1 hr1
        | some l =>
            rw [ht] at hstep
            subst hstep
            intro hm1 hr1
            exact hinv hm1 hr1
      · rw [if_neg hp] at hstep
        subst hstep
        exact hinv
  | deny =>
      simp only [step, startRecordingCatch, Option.some.injEq] at hstep
      by_cases hp : 0 < s.pendingAcq
      · rw [if_pos hp] at hstep
        subst hstep
        intro hm1 hr1
        exact hinv hm1 hr1
      · rw [if_neg hp] at hstep
        subst hstep
        exact hinv
  | tick buf =>
      simp only [step] at hstep
      by_cases hf : s.animFrame = true
      · rw [if_pos hf] at hstep
        simp only [updateAudioLevel] at hstep
        by_cases ha : s.analyser = true
        · rw [if_pos (by simpa using ha)] at hstep
          cases ht : tickLevel buf with
          | none =>
              rw [ht] at hstep
              simp at hstep
          | some l =>
              rw [ht] at hstep
              simp only [Option.some.injEq] at hstep
              subst hstep
              intro hm1 hr1
              exact hinv hm1 hr1
        · rw [if_neg (by simpa using ha)] at hstep
          simp only [Option.some.injEq] at hstep
          subst hstep
          intro hm1 hr1
          exact hinv hm1 hr1
      · rw [if_neg hf] at hstep
        simp only [Option.some.injEq] at hstep
        subst hstep
        exact hinv
  | dataAvail c =>
      simp only [step, onDataAvailable, Option.some.injEq] at hstep
      by_cases hr : s.recorder.isSome
      · rw [if_pos hr] at hstep
        by_cases hc : 0 < c.length
        · rw [if_pos hc] at hstep
          subst hstep
          intro hm1 hr1
          exact hinv hm1 hr1
        · rw [if_neg hc] at hstep
          subst hstep
          exact hinv
      · rw [if_neg hr] at hstep
        subst hstep
        exact hinv
  | stopFire =>
      simp only [step, onStop, Option.some.injEq] at hstep
      by_cases hp : s.pendingStop = true
      · rw [if_pos hp] at hstep
        subst hstep
        intro hm1 hr1
        exact hinv hm1 hr1
      · rw [if_neg hp] at hstep
        subst hstep
        exact hinv
  | uploadOk =>
      simp only [step, onStopUploadSettled, Option.some.injEq] at hstep
      by_cases hp : s.pendingUpload = true
      · rw [if_pos hp] at hstep
        subst hstep
        intro hm1 hr1
        exact hinv hm1 hr1
      · rw [if_neg hp] at hstep
        subst hstep
        exact hinv
  | uploadErr =>
      simp only [step, onStopUploadSettled, Option.some.injEq] at hstep
      by_cases hp : s.pendingUpload = true
      · rw [if_pos hp] at hstep
        subst hstep
        intro hm1 hr1
        exact hinv hm1 hr1
      · rw [if_neg hp] at hstep
        subst hstep
        exact hinv
  | timeout =>
      simp only [step, resetStatusTimeout, Option.some.injEq] at hstep
      by_cases hp : s.timeoutDelay.isSome
      · rw [if_pos hp] at hstep
        subst hstep
        intro hm1 hr1
        exact hinv hm1 hr1
      · rw [if_neg hp] at hstep
        subst hstep
        exact hinv
  | unmount =>
      simp only [step] at hstep
      by_cases hm : s.mounted = true
      · rw [if_pos hm] at hstep
        simp only [unmountCleanup] at hstep
        by_cases hg : s.recorder.isSome && s.isRecording
        · rw [if_pos hg] at hstep
          rcases hr : s.recorder with _ | r
          · rw [hr] at hstep
            simp at hstep
          · cases r with
            | inactive =>
                rw [hr] at hstep
                simp at hstep
            | recording =>
                rw [hr] at hstep
                simp only [Option.some.injEq] at hstep
                subst hstep
                intro hm1 _
                exact absurd hm1 (by simp)
        · rw [if_neg hg] at hstep
          simp only [Option.some.injEq] at hstep
          subst hstep
          intro hm1 _
          exact absurd hm1 (by simp)
      · rw [if_neg hm] at hstep
        simp only [Option.some.injEq] at hstep
        subst hstep
        exact hinv

/-- The invariant holds in every state reachable from the freshly mounted
component. -/
theorem run_RecInv (evs : List Ev) :
    ∀ s s1 : OrbState, RecInv s → run s evs = some s1 → RecInv s1 := by
  induction evs with
  | nil =>
      intro s s1 hinv hrun
      rw [run, Option.some.injEq] at hrun
      subst hrun
      exact hinv
  | cons e t ih =>
      intro s s1 hinv hrun
      rw [run] at hrun
      cases hs : step s e with
      | none => rw [hs] at hrun; simp at hrun
      | some s2 =>
          rw [hs] at hrun
          simp only at hrun
          exact ih s2 s1 (step_RecInv s s2 e hinv hs) hrun

/-- C5 counterexample: on a zero-length sample buffer the tick reduction
raises (Array.prototype.reduce with no initial value throws a TypeError on an
empty array) instead of publishing level 0, and a session that receives a
zero-length buffer on a visualization tick crashes. -/
theorem tick_zero_length_throws :
    tickLevel [] = none ∧
    run init [Ev.mouseDown, Ev.grantOk (List.replicate 128 0), Ev.tick []] = none := by
  constructor
  · rfl
  · decide

/-- C5 amended: a visualization tick on any non-empty byte buffer (entries at
most 255, as delivered by getByteFrequencyData) does not throw and reduces the
buffer to a scalar level in the interval zero to one; a zero-length buffer is
not degraded to level 0 but raises a TypeError from the unseeded reduce. -/
theorem tick_reduction_in_unit_interval (buf : List ℕ)
    (hne : buf ≠ []) (hb : ∀ b ∈ buf, b ≤ 255) :
    (∃ l, tickLevel buf = some l ∧ 0 ≤ l ∧ l ≤ 1) ∧ tickLevel [] = none := by
  refine ⟨⟨((buf.sum : ℚ) / buf.length) / 255, tickLevel_of_ne_nil buf hne, ?_, ?_⟩, rfl⟩
  · positivity
  · have hlen : 0 < (buf.length : ℚ) := by
      have : 0 < buf.length := List.length_pos.mpr hne
      exact_mod_cast this
    have hsum : (buf.sum : ℚ) ≤ 255 * buf.length := by
      have h1 : buf.sum ≤ buf.length * 255 := by
        simpa [smul_eq_mul] using List.sum_le_card_nsmul buf 255 hb
      have h2 : (buf.sum : ℚ) ≤ (buf.length : ℚ) * 255 := by exact_mod_cast h1
      linarith
    rw [div_div, div_le_one (by positivity)]
    linarith

/-- C5 amended witness at the concrete buffer with bytes 0 and 255. -/
theorem tick_reduction_in_unit_interval_witness :
    ([0, 255] : List ℕ) ≠ [] ∧ (∀ b ∈ ([0, 255] : List ℕ), b ≤ 255) ∧
    ((∃ l, tickLevel [0, 255] = some l ∧ 0 ≤ l ∧ l ≤ 1) ∧ tickLevel [] = none) :=
  ⟨by decide, by decide, tick_reduction_in_unit_interval [0, 255] (by decide) (by decide)⟩

/-- C7: once the upload settles, success and failure are handled
symmetrically: each sets its status, both schedule the same fixed 3000 ms
reset, and the reset returns the status to idle and clears isUploading in both
cases. -/
theorem upload_outcome_symmetric_reset (s : OrbState) (h : s.pendingUpload = true) :
    step s Ev.uploadOk = some (onStopUploadSettled true s) ∧
    step s Ev.uploadErr = some (onStopUploadSettled false s) ∧
    (onStopUploadSettled true s).uploadStatus = UploadStatus.success ∧
    (onStopUploadSettled false s).uploadStatus = UploadStatus.error ∧
    (onStopUploadSettled true s).timeoutDelay = some 3000 ∧
    (onStopUploadSettled false s).timeoutDelay = (onStopUploadSettled true s).timeoutDelay ∧
    step (onStopUploadSettled true s) Ev.timeout =
      some (resetStatusTimeout (onStopUploadSettled true s)) ∧
    step (onStopUploadSettled false s) Ev.timeout =
      some (resetStatusTimeout (onStopUploadSettled false s)) ∧
    (resetStatusTimeout (onStopUploadSettled true s)).uploadStatus = UploadStatus.idle ∧
    (resetStatusTimeout (onStopUploadSettled false s)).uploadStatus = UploadStatus.idle ∧
    (resetStatusTimeout (onStopUploadSettled true s)).isUploading = false ∧
    (resetStatusTimeout (onStopUploadSettled false s)).isUploading = false := by
  refine ⟨?_, ?_, rfl, rfl, rfl, rfl, ?_, ?_, rfl, rfl, rfl, rfl⟩ <;>
    simp [step, h, onStopUploadSettled, resetStatusTimeout]

/-- C7 witness at the state awaiting its upload resolution. -/
theorem upload_outcome_symmetric_reset_witness :
    ({ init with pendingUpload := true } : OrbState).pendingUpload = true ∧
    (step { init with pendingUpload := true } Ev.uploadOk =
      some (onStopUploadSettled true { init with pendingUpload := true }) ∧
    step { init with pendingUpload := true } Ev.uploadErr =
      some (onStopUploadSettled false { init with pendingUpload := true }) ∧
    (onStopUploadSettled true { init with pendingUpload := true }).uploadStatus =
      UploadStatus.success ∧
    (onStopUploadSettled false { init with pendingUpload := true }).uploadStatus =
      UploadStatus.error ∧
    (onStopUploadSettled true { init with pendingUpload := true }).timeoutDelay = some 3000 ∧
    (onStopUploadSettled false { init with pendingUpload := true }).timeoutDelay =
      (onStopUploadSettled true { init with pendingUpload := true }).timeoutDelay ∧
    step (onStopUploadSettled true { init with pendingUpload := true }) Ev.timeout =
      some (resetStatusTimeout (onStopUploadSettled true { init with pendingUpload := true })) ∧
    step (onStopUploadSettled false { init with pendingUpload := true }) Ev.timeout =
      some (resetStatusTimeout (onStopUploadSettled false { init with pendingUpload := true })) ∧
    (resetStatusTimeout (onStopUploadSettled true { init with pendingUpload := true })).uploadStatus =
      UploadStatus.idle ∧
    (resetStatusTimeout (onStopUploadSettled false { init with pendingUpload := true })).uploadStatus =
      UploadStatus.idle ∧
    (resetStatusTimeout (onStopUploadSettled true { init with pendingUpload := true })).isUploading =
      false ∧
    (resetStatusTimeout (onStopUploadSettled false { init with pendingUpload := true })).isUploading =
      false) :=
  ⟨rfl, upload_outcome_symmetric_reset { init with pendingUpload := true } rfl⟩

/-- C8: the pipeline classifies every non-success outcome as a thrown error
whose reason distinguishes authorization failure (401), validation failure
(400), server failure (each 5xx status), and network-level abort, pairwise;
and a failed upload makes no further attempt within the session (the settled
error branch hands over no new artifact and leaves nothing pending). -/
theorem upload_failure_classification (st : ℕ) (stx1 stx2 stx3 : String)
    (body : UploadResponse) (s : OrbState) (h5 : 500 ≤ st) (h5b : st ≤ 599) :
    uploadVoiceRecording (FetchOutcome.response 401 stx1 body) =
      Except.error (UploadError.apiError ("Failed to upload recording: " ++ stx1) 401) ∧
    uploadVoiceRecording (FetchOutcome.response 400 stx2 body) =
      Except.error (UploadError.apiError ("Failed to upload recording: " ++ stx2) 400) ∧
    uploadVoiceRecording (FetchOutcome.response st stx3 body) =
      Except.error (UploadError.apiError ("Failed to upload recording: " ++ stx3) st) ∧
    uploadVoiceRecording FetchOutcome.networkFailure = Except.error UploadError.networkError ∧
    errStatus (UploadError.apiError ("Failed to upload recording: " ++ stx1) 401) = some 401 ∧
    errStatus (UploadError.apiError ("Failed to upload recording: " ++ stx2) 400) = some 400 ∧
    errStatus (UploadError.apiError ("Failed to upload recording: " ++ stx3) st) = some st ∧
    errStatus UploadError.networkError = none ∧
    (some 401 : Option ℕ) ≠ some 400 ∧ some 401 ≠ some st ∧ some 400 ≠ some st ∧
    (some 401 : Option ℕ) ≠ none ∧ (some 400 : Option ℕ) ≠ none ∧
    (some st : Option ℕ) ≠ none ∧
    (onStopUploadSettled false s).uploads = s.uploads ∧
    (onStopUploadSettled false s).pendingUpload = false := by
  have hst : respOk st = false := by
    simp only [respOk, Bool.and_eq_false_iff, decide_eq_false_iff_not, not_le]
    omega
  refine ⟨?_, ?_, ?_, rfl, rfl, rfl, rfl, rfl, ?_, ?_, ?_, ?_, ?_, ?_, rfl, rfl⟩
  · simp [uploadVoiceRecording, respOk]
  · simp [uploadVoiceRecording, respOk]
  · simp [uploadVoiceRecording, hst]
  · simp
  · simp; omega
  · simp; omega
  · simp
  · simp
  · simp

/-- A sample parsed response body used by concrete witnesses. -/
def sampleBody : UploadResponse :=
  ⟨false, "", none, none, none⟩

/-- C8 witness at status 503 with empty status texts. -/
theorem upload_failure_classification_witness :
    500 ≤ 503 ∧ 503 ≤ 599 ∧
    (uploadVoiceRecording (FetchOutcome.response 401 "" sampleBody) =
      Except.error (UploadError.apiError ("Failed to upload recording: " ++ "") 401) ∧
    uploadVoiceRecording (FetchOutcome.response 400 "" sampleBody) =
      Except.error (UploadError.apiError ("Failed to upload recording: " ++ "") 400) ∧
    uploadVoiceRecording (FetchOutcome.response 503 "" sampleBody) =
      Except.error (UploadError.apiError ("Failed to upload recording: " ++ "") 503) ∧
    uploadVoiceRecording FetchOutcome.networkFailure = Except.error UploadError.networkError ∧
    errStatus (UploadError.apiError ("Failed to upload recording: " ++ "") 401) = some 401 ∧
    errStatus (UploadError.apiError ("Failed to upload recording: " ++ "") 400) = some 400 ∧
    errStatus (UploadError.apiError ("Failed to upload recording: " ++ "") 503) = some 503 ∧
    errStatus UploadError.networkError = none ∧
    (some 401 : Option ℕ) ≠ some 400 ∧ some 401 ≠ some 503 ∧ some 400 ≠ some 503 ∧
    (some 401 : Option ℕ) ≠ none ∧ (some 400 : Option ℕ) ≠ none ∧
    (some 503 : Option ℕ) ≠ none ∧
    (onStopUploadSettled false init).uploads = init.uploads ∧
    (onStopUploadSettled false init).pendingUpload = false) :=
  ⟨by omega, by omega,
    upload_failure_classification 503 "" "" "" sampleBody init (by omega) (by omega)⟩

/-- C1: for a begin-end capture cycle, exactly one upload attempt occurs; the
artifact handed to the upload pipeline equals the concatenation of all chunks
the recorder delivered between acquisition success and the finalize
notification (none dropped, none duplicated; empty deliveries contribute no
bytes), a zero-length artifact is still uploaded, and the upload log is
unchanged by any further non-begin events. -/
theorem capture_cycle_single_upload (buf : List ℕ) (mids1 mids2 evs : List Ev)
    (hbuf : buf.length = 128)
    (hm1 : ∀ e ∈ mids1, isMidEv e = true) (hm2 : ∀ e ∈ mids2, isMidEv e = true)
    (hnb : ∀ e ∈ evs, noBeginEv e = true) :
    ∃ s s1 : OrbState,
      run init ([Ev.mouseDown, Ev.grantOk buf] ++ mids1 ++ [Ev.mouseUp] ++ mids2
        ++ [Ev.stopFire]) = some s ∧
      s.uploads = [(dataOf (mids1 ++ mids2)).flatten] ∧
      run s evs = some s1 ∧
      s1.uploads = [(dataOf (mids1 ++ mids2)).flatten] := by
  obtain ⟨s, hrun, hup, hch, hpa, hps, hrec, haf, hal, hls, hpu, hir, hiu, hac, hus, hmt⟩ :=
    run_cycle buf mids1 mids2 hbuf hm1 hm2
  obtain ⟨s1, hr1, _, _, _, _, _, hup1, _, _, _⟩ :=
    run_quiescent_total evs s hnb hpa hps (by rw [hrec]; simp) haf hir
  exact ⟨s, s1, hrun, hup, hr1, hup1.trans hup⟩

/-- C1 witness: a cycle with deliveries of sizes 2, 0 and 1 around the end
gesture uploads exactly the six bytes, once, and a failed upload followed by
the reset timer leaves the log unchanged. -/
theorem capture_cycle_single_upload_witness :
    (List.replicate 128 0 : List ℕ).length = 128 ∧
    (∀ e ∈ ([Ev.dataAvail [7, 8], Ev.tick (List.replicate 128 4)] : List Ev),
      isMidEv e = true) ∧
    (∀ e ∈ ([Ev.dataAvail [], Ev.dataAvail [9]] : List Ev), isMidEv e = true) ∧
    (∀ e ∈ ([Ev.uploadErr, Ev.timeout] : List Ev), noBeginEv e = true) ∧
    (∃ s s1 : OrbState,
      run init ([Ev.mouseDown, Ev.grantOk (List.replicate 128 0)]
        ++ [Ev.dataAvail [7, 8], Ev.tick (List.replicate 128 4)] ++ [Ev.mouseUp]
        ++ [Ev.dataAvail [], Ev.dataAvail [9]] ++ [Ev.stopFire]) = some s ∧
      s.uploads = [(dataOf ([Ev.dataAvail [7, 8], Ev.tick (List.replicate 128 4)]
        ++ [Ev.dataAvail [], Ev.dataAvail [9]])).flatten] ∧
      run s [Ev.uploadErr, Ev.timeout] = some s1 ∧
      s1.uploads = [(dataOf ([Ev.dataAvail [7, 8], Ev.tick (List.replicate 128 4)]
        ++ [Ev.dataAvail [], Ev.dataAvail [9]])).flatten]) :=
  ⟨by decide, by decide, by decide, by decide,
    capture_cycle_single_upload (List.replicate 128 0)
      [Ev.dataAvail [7, 8], Ev.tick (List.replicate 128 4)]
      [Ev.dataAvail [], Ev.dataAvail [9]] [Ev.uploadErr, Ev.timeout]
      (by decide) (by decide) (by decide) (by decide)⟩

/-- C2 counterexample: a second begin gesture (mouse down) arriving while the
session is already Recording is not ignored: a second getUserMedia request is
issued within the same cycle, so the claimed idempotent re-entry guard for
non-keyboard begins does not exist. -/
theorem double_begin_issues_second_acquisition :
    (run init [Ev.mouseDown, Ev.grantOk (List.replicate 128 0)]).map
      OrbState.isRecording = some true ∧
    (run init [Ev.mouseDown, Ev.grantOk (List.replicate 128 0), Ev.mouseDown]).map
      OrbState.acqCount = some 2 := by
  exact ⟨by decide, by decide⟩

/-- C2 amended: only the keyboard begin path is guarded: a space keydown while
the closure flag is already held, or while the recorder state is recording, is
ignored entirely; the mouse and touch begin handlers are unguarded and always
issue a fresh acquisition request. -/
theorem begin_reentry_guard_keyboard_only (s : OrbState) :
    (s.isKeyHolding = true → step s Ev.keyDown = some s) ∧
    (s.recorder = some RecState.recording → step s Ev.keyDown = some s) ∧
    (s.mounted = true → step s Ev.mouseDown = some (handleMouseDown s)) ∧
    (handleMouseDown s).pendingAcq = s.pendingAcq + 1 ∧
    (handleMouseDown s).acqCount = s.acqCount + 1 := by
  refine ⟨?_, ?_, ?_, rfl, rfl⟩
  · intro hk
    simp [step, handleKeyDown, hk]
  · intro hrec
    by_cases hk : s.isKeyHolding
    · simp [step, handleKeyDown, hk]
    · simp [step, handleKeyDown, hk, hrec]
  · intro hm
    simp [step, hm]

/-- C2 amended witness at a state that is both key-holding and recording. -/
theorem begin_reentry_guard_keyboard_only_witness :
    step keyHoldingRecordingState Ev.keyDown = some keyHoldingRecordingState ∧
    step keyHoldingRecordingState Ev.mouseDown
      = some (handleMouseDown keyHoldingRecordingState) ∧
    (handleMouseDown keyHoldingRecordingState).pendingAcq
      = keyHoldingRecordingState.pendingAcq + 1 ∧
    (handleMouseDown keyHoldingRecordingState).acqCount
      = keyHoldingRecordingState.acqCount + 1 := by
  have h := begin_reentry_guard_keyboard_only keyHoldingRecordingState
  exact ⟨h.1 rfl, h.2.2.1 rfl, h.2.2.2.1, h.2.2.2.2⟩

/-- C3 counterexample: leaving Recording does not cancel the visualization
loop.  After the end gesture (isRecording is false, the recorder is inactive,
the session is in its Stopping window) the scheduled frame is still pending,
and a tick that then fires writes the published level (here to 1, from a
full-scale buffer) and schedules another frame: cancelAnimationFrame lives
only in the asynchronous onstop handler, so level writes continue between
end() and finalize, contradicting never-again-updates-once-phase-left-
Recording. -/
theorem tick_writes_level_after_end_before_finalize :
    (run init [Ev.mouseDown, Ev.grantOk (List.replicate 128 0), Ev.mouseUp]).map
      OrbState.isRecording = some false ∧
    (run init [Ev.mouseDown, Ev.grantOk (List.replicate 128 0), Ev.mouseUp]).map
      OrbState.recorder = some (some RecState.inactive) ∧
    (run init [Ev.mouseDown, Ev.grantOk (List.replicate 128 0), Ev.mouseUp]).map
      OrbState.animFrame = some true ∧
    (run init [Ev.mouseDown, Ev.grantOk (List.replicate 128 0), Ev.mouseUp,
      Ev.tick (List.replicate 128 255)]).map OrbState.audioLevel = some 1 ∧
    (run init [Ev.mouseDown, Ev.grantOk (List.replicate 128 0), Ev.mouseUp,
      Ev.tick (List.replicate 128 255)]).map OrbState.animFrame = some true := by
  obtain ⟨l0, hl0⟩ := tickLevel_isSome_of_ne_nil (List.replicate 128 0) (by simp)
  have htick : tickLevel (List.replicate 128 255) = some 1 := by
    rw [tickLevel_of_ne_nil _ (by simp)]
    norm_num [List.sum_replicate, smul_eq_mul]
  have h1 : step init Ev.mouseDown = some (handleMouseDown init) :=
    step_mouseDown_mounted init rfl
  have h2 : step (handleMouseDown init) (Ev.grantOk (List.replicate 128 0)) =
      some (grantedState l0) := by
    simp only [step, handleMouseDown, init, startRecordingGranted, hl0]
    norm_num [grantedState, init]
  have h3 : step (grantedState l0) Ev.mouseUp = some (stoppingState l0) := by
    simp [step, grantedState, stoppingState, init, handleMouseUp, vrStopRecording]
  have h4 : step (stoppingState l0) (Ev.tick (List.replicate 128 255)) =
      some (stoppingState 1) := by
    simp only [step, stoppingState, grantedState, init, updateAudioLevel, htick]
    norm_num
  have hrun3 : run init [Ev.mouseDown, Ev.grantOk (List.replicate 128 0), Ev.mouseUp]
      = some (stoppingState l0) := by
    rw [run_cons_of_step _ _ h1, run_cons_of_step _ _ h2, run_cons_of_step _ _ h3]
    rfl
  have hrun4 : run init [Ev.mouseDown, Ev.grantOk (List.replicate 128 0), Ev.mouseUp,
        Ev.tick (List.replicate 128 255)] = some (stoppingState 1) := by
    rw [run_cons_of_step _ _ h1, run_cons_of_step _ _ h2, run_cons_of_step _ _ h3,
      run_cons_of_step _ _ h4]
    rfl
  rw [hrun3, hrun4]
  exact ⟨rfl, rfl, rfl, rfl, rfl⟩

/-- C3 amended: the visualization loop is cancelled at the finalize (onstop)
step, not at end(); between end() and the finalize notification a pending
tick may still write the level and schedule a new frame (counterexample).
Once the finalize notification cancels the pending frame and zeroes the
level, no event sequence without a new begin gesture ever writes the
published level again or schedules a new tick. -/
theorem no_level_writes_after_cancellation (buf : List ℕ) (mids1 mids2 evs : List Ev)
    (hbuf : buf.length = 128)
    (hm1 : ∀ e ∈ mids1, isMidEv e = true) (hm2 : ∀ e ∈ mids2, isMidEv e = true)
    (hnb : ∀ e ∈ evs, noBeginEv e = true) :
    ∃ s s1 : OrbState,
      run init ([Ev.mouseDown, Ev.grantOk buf] ++ mids1 ++ [Ev.mouseUp] ++ mids2
        ++ [Ev.stopFire]) = some s ∧
      s.audioLevel = 0 ∧ s.animFrame = false ∧
      run s evs = some s1 ∧
      s1.audioLevel = 0 ∧ s1.animFrame = false := by
  obtain ⟨s, hrun, hup, hch, hpa, hps, hrec, haf, hal, hls, hpu, hir, hiu, hac, hus, hmt⟩ :=
    run_cycle buf mids1 mids2 hbuf hm1 hm2
  obtain ⟨s1, hr1, _, _, _, haf1, _, _, _, _, hal1⟩ :=
    run_quiescent_total evs s hnb hpa hps (by rw [hrec]; simp) haf hir
  exact ⟨s, s1, hrun, hal, haf, hr1, hal1.trans hal, haf1⟩

/-- C3 witness: after a concrete cycle the level is zero and stays zero
through the upload resolution, the reset timer, a stray tick and a key up. -/
theorem no_level_writes_after_cancellation_witness :
    (List.replicate 128 0 : List ℕ).length = 128 ∧
    (∀ e ∈ ([Ev.tick (List.replicate 128 9)] : List Ev), isMidEv e = true) ∧
    (∀ e ∈ ([] : List Ev), isMidEv e = true) ∧
    (∀ e ∈ ([Ev.uploadOk, Ev.tick (List.replicate 128 9), Ev.keyUp, Ev.timeout] : List Ev),
      noBeginEv e = true) ∧
    (∃ s s1 : OrbState,
      run init ([Ev.mouseDown, Ev.grantOk (List.replicate 128 0)]
        ++ [Ev.tick (List.replicate 128 9)] ++ [Ev.mouseUp] ++ []
        ++ [Ev.stopFire]) = some s ∧
      s.audioLevel = 0 ∧ s.animFrame = false ∧
      run s [Ev.uploadOk, Ev.tick (List.replicate 128 9), Ev.keyUp, Ev.timeout] = some s1 ∧
      s1.audioLevel = 0 ∧ s1.animFrame = false) :=
  ⟨by decide, by decide, by decide, by decide,
    no_level_writes_after_cancellation (List.replicate 128 0)
      [Ev.tick (List.replicate 128 9)] []
      [Ev.uploadOk, Ev.tick (List.replicate 128 9), Ev.keyUp, Ev.timeout]
      (by decide) (by decide) (by decide) (by decide)⟩

/-- C4 counterexample: when the MediaRecorder constructor throws after the
stream was granted, the catch releases nothing: the granted stream stays live
(no track stop) and the visualization frame stays scheduled although the
session is in no acquiring, recording or stopping phase, and even a
subsequent end gesture and unmount never release the stream. -/
theorem recorder_construction_failure_leaks_stream :
    (run init [Ev.mouseDown, Ev.grantNoRec (List.replicate 128 0)]).map
      OrbState.liveStreams = some 1 ∧
    (run init [Ev.mouseDown, Ev.grantNoRec (List.replicate 128 0)]).map
      OrbState.animFrame = some true ∧
    (run init [Ev.mouseDown, Ev.grantNoRec (List.replicate 128 0)]).map
      OrbState.isRecording = some false ∧
    (run init [Ev.mouseDown, Ev.grantNoRec (List.replicate 128 0)]).map
      OrbState.recorder = some none ∧
    (run init [Ev.mouseDown, Ev.grantNoRec (List.replicate 128 0)]).map
      OrbState.pendingAcq = some 0 ∧
    (run init [Ev.mouseDown, Ev.grantNoRec (List.replicate 128 0)]).map
      OrbState.pendingStop = some false ∧
    (run init [Ev.mouseDown, Ev.grantNoRec (List.replicate 128 0)]).map
      OrbState.alerted = some true ∧
    (run init [Ev.mouseDown, Ev.grantNoRec (List.replicate 128 0), Ev.mouseUp,
      Ev.unmount]).map OrbState.liveStreams = some 1 := by
  exact ⟨by decide, by decide, by decide, by decide, by decide, by decide,
    by decide, by decide⟩

/-- C4 amended: on the normal path the stream and the pending frame are
released exactly at the finalize step that hands the artifact over, not
before (both are still held right after the end gesture); a denied
acquisition holds nothing; but on the construction-failure path after a
granted stream the catch releases nothing and the stream leaks. -/
theorem resource_release_at_finalize (buf : List ℕ) (mids : List Ev)
    (hbuf : buf.length = 128) (hm : ∀ e ∈ mids, isMidEv e = true) :
    (∃ s : OrbState,
      run init ([Ev.mouseDown, Ev.grantOk buf] ++ mids ++ [Ev.mouseUp]) = some s ∧
      s.liveStreams = 1 ∧ s.animFrame = true ∧ s.analyser = true ∧
      s.pendingStop = true ∧ step s Ev.stopFire = some (onStop s) ∧
      (onStop s).liveStreams = 0 ∧ (onStop s).animFrame = false) ∧
    (∃ sd : OrbState, run init [Ev.mouseDown, Ev.deny] = some sd ∧
      sd.liveStreams = 0 ∧ sd.recorder = none ∧ sd.analyser = false) := by
  constructor
  · have hne : buf ≠ [] := List.ne_nil_of_length_pos (by omega)
    have hA : step init Ev.mouseDown = some (handleMouseDown init) :=
      step_mouseDown_mounted init rfl
    obtain ⟨sB, hB, hBan, hBaf, hBrec, hBch, hBir, hBpa, hBls, hBup, hBmt, hBac,
      hBps, hBpu, hBiu, hBus⟩ :=
      step_grantOk_facts (handleMouseDown init) buf (by simp [handleMouseDown, init]) hne
    obtain ⟨sC, hC, hCch, hCan, hCaf, hCrec, hCup, hCls, hCps, hCpu, hCir, hCpa,
      hCmt, hCac, hCiu, hCus⟩ :=
      run_mid_facts mids sB hm hBan hBaf (by simp [hBrec])
    obtain ⟨sD, hD, hDrec, hDir, hDps, hDch, hDup, hDls, hDaf, hDan, hDpa, hDmt,
      hDac, hDpu, hDiu, hDus⟩ :=
      step_mouseUp_facts sC (by rw [hCmt, hBmt]; simp [handleMouseDown, init])
        (by rw [hCrec, hBrec]) (by rw [hCir, hBir])
    have htr : [Ev.mouseDown, Ev.grantOk buf] ++ mids ++ [Ev.mouseUp]
        = Ev.mouseDown :: Ev.grantOk buf :: (mids ++ [Ev.mouseUp]) := by simp
    have hls : sD.liveStreams = 1 := by
      rw [hDls, hCls, hBls]
      simp [handleMouseDown, init]
    refine ⟨sD, ?_, hls, by rw [hDaf, hCaf], by rw [hDan, hCan], hDps,
      step_stopFire_pending sD hDps, ?_, by simp [onStop]⟩
    · rw [htr, run_cons_of_step _ _ hA, run_cons_of_step _ _ hB, run_append, hC,
        Option.some_bind, run_cons_of_step _ _ hD]
      rfl
    · simp [onStop, hls]
  · exact ⟨deniedState, by decide, rfl, rfl, rfl⟩

/-- C4 amended witness at a concrete cycle with one delivered chunk. -/
theorem resource_release_at_finalize_witness :
    (List.replicate 128 0 : List ℕ).length = 128 ∧
    (∀ e ∈ ([Ev.dataAvail [5]] : List Ev), isMidEv e = true) ∧
    ((∃ s : OrbState,
      run init ([Ev.mouseDown, Ev.grantOk (List.replicate 128 0)]
        ++ [Ev.dataAvail [5]] ++ [Ev.mouseUp]) = some s ∧
      s.liveStreams = 1 ∧ s.animFrame = true ∧ s.analyser = true ∧
      s.pendingStop = true ∧ step s Ev.stopFire = some (onStop s) ∧
      (onStop s).liveStreams = 0 ∧ (onStop s).animFrame = false) ∧
    (∃ sd : OrbState, run init [Ev.mouseDown, Ev.deny] = some sd ∧
      sd.liveStreams = 0 ∧ sd.recorder = none ∧ sd.analyser = false)) :=
  ⟨by decide, by decide,
    resource_release_at_finalize (List.replicate 128 0) [Ev.dataAvail [5]]
      (by decide) (by decide)⟩

/-- C6 counterexample: after a denied acquisition the session does not enter
a Failed display state and no fixed-delay reset is scheduled: uploadStatus
remains idle, no timer exists, and the only effect is the alert; the claimed
Failed-then-timed-return-to-Idle behavior does not occur. -/
theorem denied_acquisition_no_failed_state :
    (run init [Ev.mouseDown, Ev.deny]).map
      (fun s => (s.uploadStatus, s.timeoutDelay, s.isUploading, s.alerted))
      = some (UploadStatus.idle, none, false, true) := by
  decide

/-- C6 amended: on denial the alert fires, no recorder is ever constructed,
the upload pipeline is never invoked (neither immediately nor by any further
non-begin events), and the session is idle-equivalent immediately, with no
Failed state and no fixed-delay timer, so a new begin gesture issues a fresh
acquisition request at once. -/
theorem denied_acquisition_recovery (evs : List Ev)
    (hnb : ∀ e ∈ evs, noBeginEv e = true) :
    ∃ s s1 : OrbState,
      run init [Ev.mouseDown, Ev.deny] = some s ∧
      s.alerted = true ∧ s.recorder = none ∧ s.uploads = [] ∧
      s.uploadStatus = UploadStatus.idle ∧ s.timeoutDelay = none ∧
      s.isRecording = false ∧ s.isUploading = false ∧ s.liveStreams = 0 ∧
      s.mounted = true ∧ step s Ev.mouseDown = some (handleMouseDown s) ∧
      (handleMouseDown s).pendingAcq = s.pendingAcq + 1 ∧
      run s evs = some s1 ∧ s1.uploads = [] ∧ s1.acqCount = 1 := by
  have hrun : run init [Ev.mouseDown, Ev.deny] = some deniedState := by
    decide
  obtain ⟨s1, hr1, _, _, _, _, _, hup1, _, hac1, _⟩ :=
    run_quiescent_total evs deniedState hnb rfl rfl
      (by simp [deniedState, init]) rfl rfl
  exact ⟨deniedState, s1, hrun, rfl, rfl, rfl, rfl, rfl, rfl, rfl, rfl, rfl,
    by simp [step, deniedState, init], rfl, hr1, hup1, hac1⟩

/-- C6 amended witness with an end gesture and a stray timer after denial. -/
theorem denied_acquisition_recovery_witness :
    (∀ e ∈ ([Ev.mouseUp, Ev.timeout] : List Ev), noBeginEv e = true) ∧
    (∃ s s1 : OrbState,
      run init [Ev.mouseDown, Ev.deny] = some s ∧
      s.alerted = true ∧ s.recorder = none ∧ s.uploads = [] ∧
      s.uploadStatus = UploadStatus.idle ∧ s.timeoutDelay = none ∧
      s.isRecording = false ∧ s.isUploading = false ∧ s.liveStreams = 0 ∧
      s.mounted = true ∧ step s Ev.mouseDown = some (handleMouseDown s) ∧
      (handleMouseDown s).pendingAcq = s.pendingAcq + 1 ∧
      run s [Ev.mouseUp, Ev.timeout] = some s1 ∧ s1.uploads = [] ∧ s1.acqCount = 1) :=
  ⟨by decide, denied_acquisition_recovery [Ev.mouseUp, Ev.timeout] (by decide)⟩

/-- C9: unmounting while the session is Recording force-ends it without
throwing: the recorder is stopped (so its onstop fires and stops the stream
tracks, releasing the microphone), the pending visualization frame is
cancelled, and the document listeners are removed. -/
theorem unmount_mid_recording_teardown (s : OrbState) (hm : s.mounted = true)
    (hr : s.isRecording = true) (hrec : s.recorder = some RecState.recording) :
    ∃ s1, step s Ev.unmount = some s1 ∧
      s1.listeners = false ∧ s1.mounted = false ∧ s1.animFrame = false ∧
      s1.recorder = some RecState.inactive ∧ s1.pendingStop = true ∧
      step s1 Ev.stopFire = some (onStop s1) ∧
      (onStop s1).liveStreams = s.liveStreams - 1 ∧
      (onStop s1).animFrame = false := by
  have hstep : step s Ev.unmount =
      some { s with mounted := false, listeners := false,
                    recorder := some RecState.inactive, pendingStop := true,
                    animFrame := false } := by
    simp [step, hm, unmountCleanup, hrec, hr]
  refine ⟨_, hstep, rfl, rfl, rfl, rfl, rfl, step_stopFire_pending _ rfl, ?_, rfl⟩
  simp [onStop]

/-- C9 witness at a concrete mid-recording state with one live stream. -/
theorem unmount_mid_recording_teardown_witness :
    midRecordingState.mounted = true ∧
    midRecordingState.isRecording = true ∧
    midRecordingState.recorder = some RecState.recording ∧
    (∃ s1, step midRecordingState Ev.unmount = some s1 ∧
      s1.listeners = false ∧ s1.mounted = false ∧ s1.animFrame = false ∧
      s1.recorder = some RecState.inactive ∧ s1.pendingStop = true ∧
      step s1 Ev.stopFire = some (onStop s1) ∧
      (onStop s1).liveStreams = midRecordingState.liveStreams - 1 ∧
      (onStop s1).animFrame = false) :=
  ⟨rfl, rfl, rfl, unmount_mid_recording_teardown midRecordingState rfl rfl rfl⟩

/-- C10: an end-type input (mouse up, mouse leave, touch end, key up)
delivered while no recording is in progress, for example after a denied
acquisition or after the recorder already stopped, is a safe no-op in both
components: no handler throws, the recorder is not called, no upload occurs,
and the only possible state change is clearing the holding flags. -/
theorem end_without_recording_noop (s : OrbState) (hm : s.mounted = true)
    (hr : s.isRecording = false) (hrec : s.recorder ≠ some RecState.recording) :
    step s Ev.mouseUp = some { s with isHolding := false } ∧
    step s Ev.touchEnd = some { s with isHolding := false } ∧
    orbHandleMouseUp s = { s with isHolding := false } ∧
    orbStopRecording s = s ∧
    (step s Ev.keyUp = some s ∨
      step s Ev.keyUp = some { s with isKeyHolding := false, isHolding := false }) := by
  refine ⟨?_, ?_, ?_, ?_, ?_⟩
  · simp [step, hm, handleMouseUp, vrStopRecording, hr]
  · simp [step, hm, handleTouchEnd, handleMouseUp, vrStopRecording, hr]
  · simp [orbHandleMouseUp, orbStopRecording, hrec]
  · simp [orbStopRecording, hrec]
  · by_cases hk : s.listeners && s.isKeyHolding
    · right
      simp only [step, handleKeyUp, hk, if_true]
      rw [if_neg (by simpa using hrec)]
    · left
      simp [step, handleKeyUp, hk]

/-- C10 witness at a holding state whose recorder has already stopped. -/
theorem end_without_recording_noop_witness :
    step stoppedHoldingState Ev.mouseUp
      = some { stoppedHoldingState with isHolding := false } ∧
    step stoppedHoldingState Ev.touchEnd
      = some { stoppedHoldingState with isHolding := false } ∧
    orbHandleMouseUp stoppedHoldingState
      = { stoppedHoldingState with isHolding := false } ∧
    orbStopRecording stoppedHoldingState = stoppedHoldingState ∧
    (step stoppedHoldingState Ev.keyUp = some stoppedHoldingState ∨
      step stoppedHoldingState Ev.keyUp
      = some { stoppedHoldingState with isKeyHolding := false, isHolding := false }) :=
  end_without_recording_noop stoppedHoldingState rfl rfl
    (by simp [stoppedHoldingState, init])

end Donna
